import Mathlib

/-!
# Verification of the statistical profiling engine

A shallow embedding of `dagster_app/dagster_app/utils/statistics.py`:
the column profiler (`analyze_column`), the row-evidence helpers
(`_build_position_lookup`, `_positions_to_ranges`, `_build_anomaly_summary`),
the row-context extractor (`_extract_row_context`), the alert candidate
builder (`build_alert_candidates`) and the table/dataset aggregator
(`compute_statistics`).

Modelling conventions:
* Python/NumPy numeric scalars (ints and floats) are modelled as exact
  rationals `ℚ`; float rounding is not modelled.
* Row index keys are modelled as `ℕ` (pandas integer labels).
* String cells model scalars that do not coerce to numeric.
* The two transcendental quantities (`log2`-based entropy and `log2` itself)
  are parameters `entF : List ℕ → ℚ` and `log2F : ℕ → ℚ` standing for the
  float values computed by `_entropy_from_counts` and `np.log2`; every float64
  value is a rational, so this is an exact interface to the unmodelled
  library computation.  The checks depend on them only through comparisons.
* `std_dev` and `skewness` are square roots of rationals; the code compares
  them only against constants, which is equivalent to comparing their squares,
  so the embedding computes with the squared quantities and stores the metric
  values through the `MVal.msqrt` encoding (`msqrt q` denotes the real
  `sign q * sqrt |q|`).
-/

namespace Stats

/-- A cell value of a profiled series: null, a numeric scalar, or a
non-numeric string. -/
inductive Val
  | vnull
  | vnum (q : ℚ)
  | vstr (s : String)
deriving DecidableEq

/-- A JSON-safe metric value as produced by `_json_safe` (`msqrt q` encodes
the real number `sign q * sqrt |q|`, see the module docstring). -/
inductive MVal
  | mnull
  | mnum (q : ℚ)
  | mstr (s : String)
  | msqrt (q : ℚ)
deriving DecidableEq

/-- The heterogeneous `metrics` dictionaries, with insertion order. -/
abbrev Bag := List (String × MVal)

/-- `_json_safe` on a cell value. -/
def _json_safe : Val → MVal
  | .vnull => .mnull
  | .vnum q => .mnum q
  | .vstr s => .mstr s

/-- One contiguous inclusive span of flagged row positions; the Python dict
`{"start", "end", "count"}` (`end` is a Lean keyword, rendered `stop`). -/
structure RowRange where
  start : ℕ
  stop : ℕ
  count : ℕ
deriving DecidableEq

/-- The `locations` payload of a check.  The Python field is a dict that is
either empty or carries exactly these three keys; the empty dict is modelled
by `Option.none` at the use sites. -/
structure Locations where
  row_ranges : List RowRange
  total_count : ℕ
  max_consecutive_run : ℕ
deriving DecidableEq

/-- One example offending row recorded by `_build_anomaly_summary`. -/
structure Sample where
  row_number : ℕ
  row_index : ℕ
  value : MVal
deriving DecidableEq

/-- `ColumnCheckResult`: summary of a single statistical check. -/
structure ColumnCheckResult where
  name : String
  passed : Bool
  severity : String
  message : String
  metrics : Bag
  samples : List Sample
  locations : Option Locations
deriving DecidableEq

/-- The dictionary returned by `_summarise_checks`. -/
structure IssueSummary where
  total_checks : ℕ
  passed_checks : ℕ
  failed_checks : ℕ
  warning_checks : ℕ
  critical_checks : ℕ
deriving DecidableEq

/-- `ColumnStatistics`: computed statistics and check results for a column. -/
structure ColumnStatistics where
  table : String
  column : String
  metrics : Bag
  checks : List ColumnCheckResult
  issue_summary : IssueSummary
deriving DecidableEq

/-- An ordered, position-addressable sequence of possibly-null values with
row index keys: the model of a `pd.Series`. -/
abbrev Series := List (ℕ × Val)

/-- Thresholds from the top of `statistics.py`. -/
def NULL_RATIO_WARNING_THRESHOLD : ℚ := 1/10
def NULL_RATIO_CRITICAL_THRESHOLD : ℚ := 1/2
def DISTINCT_RATIO_MIN_THRESHOLD : ℚ := 1/50
def DOMINANT_CATEGORY_THRESHOLD : ℚ := 19/20
def OUTLIER_RATIO_WARNING_THRESHOLD : ℚ := 1/20
def OUTLIER_RATIO_CRITICAL_THRESHOLD : ℚ := 3/20
def SKEWNESS_WARNING_THRESHOLD : ℚ := 2
def KURTOSIS_WARNING_THRESHOLD : ℚ := 3
def LOW_VARIANCE_THRESHOLD : ℚ := 1/1000000000
def MAX_ANOMALY_SAMPLES : ℕ := 20
def MAX_ALERT_CONTEXT_ROWS : ℕ := 5

/-- `_numeric_series`: drop nulls, keep the numeric-coercible values (with
their index keys, as `dropna` keeps labels). -/
def _numeric_series (series : Series) : List (ℕ × ℚ) :=
  series.filterMap fun kv =>
    match kv.2 with
    | .vnum q => some (kv.1, q)
    | _ => none

/-- `_build_position_lookup`: the per-key ordered queue of positions
(`enumerate` produces positions in increasing order for each key). -/
def _build_position_lookup (index : List ℕ) (k : ℕ) : List ℕ :=
  (index.enum.filter fun p => p.2 = k).map Prod.fst

/-- The loop of `_positions_to_ranges`, merging a strictly increasing list of
positions that continues `prev` into inclusive ranges.  The Python loop keeps
`(start, prev, count)` as mutable state and appends a closed range at each
gap; this is the same computation in direct recursion. -/
def _ranges_loop (start prev count : ℕ) : List ℕ → List RowRange
  | [] => [⟨start, prev, count⟩]
  | pos :: rest =>
    if pos = prev then _ranges_loop start prev count rest
    else if pos = prev + 1 then _ranges_loop start pos (count + 1) rest
    else ⟨start, prev, count⟩ :: _ranges_loop pos pos 1 rest

/-- `sorted(set(positions))`. -/
def sortedDedup (positions : List ℕ) : List ℕ :=
  positions.dedup.insertionSort (· ≤ ·)

/-- `_positions_to_ranges`. -/
def _positions_to_ranges (positions : List ℕ) : List RowRange :=
  if positions = [] then []
  else
    match sortedDedup positions with
    | [] => []
    | p :: rest => _ranges_loop p p 1 rest

/-- The consumption loop of `_build_anomaly_summary`: resolve each flagged
occurrence of a key to one concrete position by popping that key's queue,
returning the `(key, position)` pairs in resolution order. -/
def _resolve_loop : (ℕ → List ℕ) → List ℕ → List (ℕ × ℕ)
  | _, [] => []
  | lookup, k :: rest =>
    match lookup k with
    | [] => _resolve_loop lookup rest
    | p :: ps => (k, p) :: _resolve_loop (fun k2 => if k2 = k then ps else lookup k2) rest

/-- The row positions resolved from the flagged index keys by the per-key
queue consumption of `_build_anomaly_summary`. -/
def resolvedPositions (index : List ℕ) (idxs : List ℕ) : List ℕ :=
  (_resolve_loop (_build_position_lookup index) idxs).map Prod.snd

/-- The dict returned by `_build_anomaly_summary`. -/
structure AnomalySummary where
  samples : List Sample
  row_ranges : List RowRange
  total_count : ℕ
  max_consecutive_run : ℕ
deriving DecidableEq

/-- The sample recorded for one resolved `(key, position)` pair: the value is
taken from `values_series.loc[key]` (first occurrence) when that series is
given and has the key, and from `series.iloc[position]` otherwise. -/
def anomalySample (series : Series) (values_series : Option (List (ℕ × ℚ)))
    (kp : ℕ × ℕ) : Sample :=
  let fallback : MVal := ((series.get? kp.2).map fun e => _json_safe e.2).getD .mnull
  let value : MVal :=
    match values_series with
    | none => fallback
    | some vs =>
      match vs.find? fun e => e.1 = kp.1 with
      | some e => .mnum e.2
      | none => fallback
  ⟨kp.2, kp.1, value⟩

/-- `_build_anomaly_summary`. -/
def _build_anomaly_summary (series : Series) (anomaly_indices : List ℕ)
    (values_series : Option (List (ℕ × ℚ)) := none)
    (max_samples : ℕ := MAX_ANOMALY_SAMPLES) : AnomalySummary :=
  if anomaly_indices = [] then ⟨[], [], 0, 0⟩
  else
    let pairs := _resolve_loop (_build_position_lookup (series.map Prod.fst)) anomaly_indices
    let samples := (pairs.take max_samples).map (anomalySample series values_series)
    let positions := pairs.map Prod.snd
    let row_ranges := _positions_to_ranges positions
    ⟨samples, row_ranges, anomaly_indices.length,
      (row_ranges.map (·.count)).foldr max 0⟩

/-- One full-row sample recorded by `_extract_row_context`. -/
structure RowSample where
  row_number : ℕ
  row_index : ℕ
  value : MVal
  row_snapshot : List (String × MVal)
deriving DecidableEq

/-- One row-context block (`{"range": ..., "row_samples": ...}`). -/
structure ContextBlock where
  range : RowRange
  row_samples : List RowSample
deriving DecidableEq

/-- A fully materialized table: ordered column names and ordered rows, each
row carrying its index key and one value per column. -/
structure DFrame where
  cols : List String
  rows : List (ℕ × List Val)
deriving DecidableEq

/-- `row.to_dict()` mapped through `_json_safe`. -/
def rowSnapshot (cols : List String) (vals : List Val) : List (String × MVal) :=
  (cols.zip vals).map fun e => (e.1, _json_safe e.2)

/-- `_extract_row_context`: one block per row range whose start lies inside
the table, each holding up to `max_rows` full-row samples starting at the
range start; ranges starting past the last row are skipped (`continue`). -/
def _extract_row_context (df : DFrame) (column : String)
    (locations : Option Locations)
    (max_rows : ℕ := MAX_ALERT_CONTEXT_ROWS) : List ContextBlock :=
  match locations with
  | none => []
  | some loc =>
    if loc.row_ranges = [] then []
    else
      let total_rows := df.rows.length
      loc.row_ranges.filterMap fun rr =>
        let start := rr.start
        let stop := if rr.stop < start then start else rr.stop
        if total_rows ≤ start then none
        else
          let resolved_end := min stop (total_rows - 1)
          let limit := min (resolved_end + 1) (start + max_rows)
          let subset := (df.rows.drop start).take (limit - start)
          let samples := subset.enum.map fun oe =>
            { row_number := start + oe.1
              row_index := oe.2.1
              value :=
                match (df.cols.zip oe.2.2).find? fun e => e.1 = column with
                | some e => _json_safe e.2
                | none => .mnull
              row_snapshot := rowSnapshot df.cols oe.2.2 : RowSample }
          some ⟨rr, samples⟩

/-- The loop of `_longest_true_run`, carrying
`(position, max_length, best_range, current_start)`. -/
def _longest_true_run_loop : ℕ → ℕ → List ℕ → Option ℕ → List Bool → ℕ × List ℕ
  | _, maxLen, best, _, [] => (maxLen, best)
  | pos, maxLen, best, cur, b :: rest =>
    if b then
      let s := cur.getD pos
      let len := pos - s + 1
      if maxLen < len then
        _longest_true_run_loop (pos + 1) len (List.range' s (pos - s + 1)) (some s) rest
      else _longest_true_run_loop (pos + 1) maxLen best (some s) rest
    else _longest_true_run_loop (pos + 1) maxLen best none rest

/-- `_longest_true_run`: longest run of `true` flags and its positions. -/
def _longest_true_run (flags : List Bool) : ℕ × List ℕ :=
  _longest_true_run_loop 0 0 [] none flags

/-- `_build_check` (severity resolves to `"info"` when the check passed). -/
def _build_check (name : String) (passed : Bool) (severity : String)
    (message : String) (metrics : Bag := []) (samples : List Sample := [])
    (locations : Option Locations := none) : ColumnCheckResult :=
  ⟨name, passed, if passed then "info" else severity, message,
    metrics, samples, locations⟩

/-- `_build_skipped_check`. -/
def _build_skipped_check (name reason : String) : ColumnCheckResult :=
  _build_check name true "info" ("Check skipped: " ++ reason)
    [("reason", .mstr reason)]

/-- `_summarise_checks`: the issue summary derived by counting the checks. -/
def _summarise_checks (checks : List ColumnCheckResult) : IssueSummary :=
  let failed := checks.countP fun c => !c.passed
  let warning := checks.countP fun c => !c.passed && c.severity = "warning"
  let critical := checks.countP fun c => !c.passed && c.severity = "critical"
  ⟨checks.length, checks.length - failed, failed, warning, critical⟩

/-- Distinct values in order of first appearance (structural recursion with
a seen-set accumulator). -/
def distinctFirstAux (seen : List Val) : List Val → List Val
  | [] => []
  | v :: rest =>
    if v ∈ seen then distinctFirstAux seen rest
    else v :: distinctFirstAux (seen ++ [v]) rest

/-- Distinct values in order of first appearance. -/
def distinctFirst (l : List Val) : List Val := distinctFirstAux [] l

/-- `value_counts(dropna=True)`: distinct values with their counts, sorted by
count descending.  pandas leaves the order of equal counts unspecified
(unstable sort); the model fixes first-appearance order as the tie-break. -/
def valueCountsPairs (l : List Val) : List (Val × ℕ) :=
  ((distinctFirst l).map fun v => (v, l.countP fun w => decide (w = v))).insertionSort
    fun a b => b.2 ≤ a.2

/-- The `counts.values.tolist()` passed to `_entropy_from_counts`. -/
def countsList (l : List Val) : List ℕ :=
  (valueCountsPairs l).map Prod.snd

/-- `_dominant_value`: most frequent value and its ratio over the series
length. -/
def _dominant_value (l : List Val) : Option Val × Option ℚ :=
  if l = [] then (none, none)
  else
    match valueCountsPairs l with
    | [] => (none, none)
    | e :: _ => (some e.1, some ((e.2 : ℚ) / (l.length : ℚ)))

/-- Linear-interpolation quantile on the sorted values
(`Series.quantile(q, interpolation="linear")`). -/
def quantileLinear (l : List ℚ) (q : ℚ) : ℚ :=
  let s := l.insertionSort (· ≤ ·)
  let n := s.length
  if n = 0 then 0
  else
    let h : ℚ := q * ((n : ℚ) - 1)
    let i : ℕ := h.floor.toNat
    let frac : ℚ := h - (i : ℚ)
    let vi := s.getD i 0
    if i + 1 < n then vi + frac * (s.getD (i + 1) 0 - vi) else vi

/-- `Series.mean()`. -/
def meanQ (l : List ℚ) : ℚ := l.sum / (l.length : ℚ)

/-- `Series.median()` (the linear-interpolation midpoint). -/
def medianQ (l : List ℚ) : ℚ := quantileLinear l (1/2)

/-- Population variance (`ddof=0`). -/
def varianceQ (l : List ℚ) : ℚ :=
  (l.map fun x => (x - meanQ l) ^ 2).sum / (l.length : ℚ)

/-- Median absolute deviation from the median. -/
def madQ (l : List ℚ) : ℚ :=
  medianQ (l.map fun x => |x - medianQ l|)

/-- `_entropy_from_counts` through the entropy parameter `entF` (see the
module docstring): `None` exactly when the counts sum to zero, which for
`value_counts` output means the empty list. -/
def _entropy_from_counts (entF : List ℕ → ℚ) (counts : List ℕ) : Option ℚ :=
  if counts.sum = 0 then none else some (entF counts)

/-! ## `analyze_column` -/

/-- Stand-in for Python's number formatting in messages (`"{:.2%}"`,
`"{:.0%}"`); the exact float rendering is not modelled. -/
def fmtPct (q : ℚ) : String := toString (q * 100) ++ "%"

/-- Stand-in for `"{:.2f}"` formatting. -/
def fmtF (q : ℚ) : String := toString q

def fmtN (n : ℕ) : String := toString n

/-- The `locations` dict built from an anomaly summary. -/
def locationsOf (a : AnomalySummary) : Locations :=
  ⟨a.row_ranges, a.total_count, a.max_consecutive_run⟩

def totalCount (s : Series) : ℕ := s.length

def nullCount (s : Series) : ℕ := s.countP fun kv => decide (kv.2 = .vnull)

def nonNullCount (s : Series) : ℕ := totalCount s - nullCount s

/-- `null_count / total_count` (`0` for the empty series, where the code
takes the `or 0.0` fallback; the metrics entry itself is `None` there). -/
def nullRatioQ (s : Series) : ℚ := (nullCount s : ℚ) / (totalCount s : ℚ)

def nullFlags (s : Series) : List Bool := s.map fun kv => decide (kv.2 = .vnull)

def longestNullRun (s : Series) : ℕ := (_longest_true_run (nullFlags s)).1

def nullRunPositions (s : Series) : List ℕ := (_longest_true_run (nullFlags s)).2

/-- `series[series.isna()].index.tolist()`. -/
def nullIndices (s : Series) : List ℕ :=
  (s.filter fun kv => decide (kv.2 = .vnull)).map Prod.fst

def nonNullSeries (s : Series) : Series :=
  s.filter fun kv => decide (kv.2 ≠ .vnull)

def nonNullVals (s : Series) : List Val := (nonNullSeries s).map Prod.snd

def distinctCountS (s : Series) : ℕ := (distinctFirst (nonNullVals s)).length

/-- `distinct_count / non_null_count`, `None` when there are no non-null
values. -/
def distinctRatioOpt (s : Series) : Option ℚ :=
  if nonNullCount s = 0 then none
  else some ((distinctCountS s : ℚ) / (nonNullCount s : ℚ))

/-- `duplicated(keep=False)` on a single value of the non-null series. -/
def isDuplicated (s : Series) (v : Val) : Bool :=
  decide (2 ≤ (nonNullVals s).countP fun w => decide (w = v))

def duplicateCount (s : Series) : ℕ :=
  (nonNullVals s).countP fun v => isDuplicated s v

/-- `non_null_series.index[duplicate_mask].tolist()`. -/
def duplicateIndices (s : Series) : List ℕ :=
  ((nonNullSeries s).filter fun kv => isDuplicated s kv.2).map Prod.fst

/-- The `null_ratio` check for a non-empty series. -/
def null_ratio_check (s : Series) : ColumnCheckResult :=
  let ratio := nullRatioQ s
  let passed := decide (ratio ≤ NULL_RATIO_WARNING_THRESHOLD)
  let severity := if NULL_RATIO_CRITICAL_THRESHOLD ≤ ratio then "critical" else "warning"
  let summary := if passed then none else some (_build_anomaly_summary s (nullIndices s))
  let message :=
    if passed then "Null ratio " ++ fmtPct ratio ++ " is within threshold " ++
      fmtPct NULL_RATIO_WARNING_THRESHOLD ++ "."
    else "Null ratio " ++ fmtPct ratio ++ " exceeds threshold " ++
      fmtPct NULL_RATIO_WARNING_THRESHOLD ++ "."
  _build_check "null_ratio" passed severity message
    [("null_ratio", .mnum ratio), ("null_count", .mnum (nullCount s : ℚ)),
     ("threshold", .mnum NULL_RATIO_WARNING_THRESHOLD),
     ("critical_threshold", .mnum NULL_RATIO_CRITICAL_THRESHOLD)]
    ((summary.map (·.samples)).getD [])
    (summary.map locationsOf)

/-- `max(5, int(total_count * 0.1))` (float truncation modelled as exact
integer division). -/
def runThreshold (s : Series) : ℕ := max 5 (totalCount s / 10)

/-- `max(10, int(total_count * 0.3))`. -/
def criticalRunThreshold (s : Series) : ℕ := max 10 (totalCount s * 3 / 10)

/-- The `null_run_length` check for a non-empty series. -/
def null_run_check (s : Series) : ColumnCheckResult :=
  let longest := longestNullRun s
  if longest = 0 then
    _build_check "null_run_length" true "info" "No null streaks detected."
      [("longest_run", .mnum 0), ("threshold", .mnum (runThreshold s : ℚ)),
       ("critical_threshold", .mnum (criticalRunThreshold s : ℚ))]
  else
    let run_indices := (nullRunPositions s).filterMap fun pos =>
      (s.get? pos).map Prod.fst
    let run_summary := _build_anomaly_summary s run_indices
    let passed_run := decide (longest < runThreshold s)
    let severity := if criticalRunThreshold s ≤ longest then "critical" else "warning"
    let message :=
      if passed_run then "Longest null streak spans " ++ fmtN longest ++
        " rows and stays below threshold."
      else "Longest null streak spans " ++ fmtN longest ++
        " rows exceeding threshold " ++ fmtN (runThreshold s) ++ "."
    _build_check "null_run_length" passed_run severity message
      [("longest_run", .mnum (longest : ℚ)),
       ("threshold", .mnum (runThreshold s : ℚ)),
       ("critical_threshold", .mnum (criticalRunThreshold s : ℚ))]
      run_summary.samples (some (locationsOf run_summary))

/-- The two null checks: skipped for a zero-row column. -/
def nullSection (s : Series) : List ColumnCheckResult :=
  if totalCount s = 0 then
    [_build_skipped_check "null_ratio" "column has zero rows",
     _build_skipped_check "null_run_length" "column has zero rows"]
  else [null_ratio_check s, null_run_check s]

/-- The `distinct_ratio` check. -/
def distinct_ratio_check (s : Series) : ColumnCheckResult :=
  match distinctRatioOpt s with
  | none => _build_skipped_check "distinct_ratio" "no non-null values"
  | some distinct_ratio =>
    let unique_coverage := distinctCountS s = nonNullCount s
    let passed := decide (DISTINCT_RATIO_MIN_THRESHOLD ≤ distinct_ratio) || decide unique_coverage
    let severity :=
      if ¬passed ∧ distinct_ratio = 0 ∧ 1 < nonNullCount s then "critical" else "warning"
    let summary :=
      if ¬passed ∧ duplicateCount s ≠ 0 then
        some (_build_anomaly_summary s (duplicateIndices s))
      else none
    let message :=
      if passed then "Distinct ratio " ++ fmtPct distinct_ratio ++ " is healthy."
      else "Distinct ratio " ++ fmtPct distinct_ratio ++ " falls below " ++
        fmtPct DISTINCT_RATIO_MIN_THRESHOLD ++ "."
    _build_check "distinct_ratio" passed severity message
      [("distinct_ratio", .mnum distinct_ratio),
       ("distinct_count", .mnum (distinctCountS s : ℚ)),
       ("threshold", .mnum DISTINCT_RATIO_MIN_THRESHOLD),
       ("duplicate_count", .mnum (duplicateCount s : ℚ))]
      ((summary.map (·.samples)).getD [])
      (summary.map locationsOf)

/-- `non_null_series[non_null_series == top_value].index.tolist()`. -/
def dominantIndices (s : Series) (top : Val) : List ℕ :=
  ((nonNullSeries s).filter fun kv => decide (kv.2 = top)).map Prod.fst

/-- The `dominant_category` check. -/
def dominant_category_check (s : Series) : ColumnCheckResult :=
  match _dominant_value (nonNullVals s) with
  | (some top_value, some top_ratio) =>
    let passed := decide (top_ratio ≤ DOMINANT_CATEGORY_THRESHOLD)
    let severity := if ¬passed ∧ (99/100 : ℚ) ≤ top_ratio then "critical" else "warning"
    let summary :=
      if passed then none
      else some (_build_anomaly_summary s (dominantIndices s top_value))
    let message :=
      if passed then "Most frequent value ratio " ++ fmtPct top_ratio ++ " is acceptable."
      else "Most frequent value ratio " ++ fmtPct top_ratio ++ " exceeds " ++
        fmtPct DOMINANT_CATEGORY_THRESHOLD ++ "."
    _build_check "dominant_category" passed severity message
      [("most_frequent_ratio", .mnum top_ratio),
       ("most_frequent_value", _json_safe top_value),
       ("threshold", .mnum DOMINANT_CATEGORY_THRESHOLD)]
      ((summary.map (·.samples)).getD [])
      (summary.map locationsOf)
  | _ => _build_skipped_check "dominant_category" "no non-null values"

/-- The entropy of the non-null value counts, through the `entF` parameter. -/
def entropyOptS (entF : List ℕ → ℚ) (s : Series) : Option ℚ :=
  _entropy_from_counts entF (countsList (nonNullVals s))

/-- The `entropy` check. -/
def entropy_check (entF : List ℕ → ℚ) (log2F : ℕ → ℚ) (s : Series) : ColumnCheckResult :=
  match entropyOptS entF s with
  | none => _build_skipped_check "entropy" "insufficient distinct values to assess entropy"
  | some entropy =>
    if distinctCountS s ≤ 1 then
      _build_skipped_check "entropy" "insufficient distinct values to assess entropy"
    else
      let max_entropy := log2F (distinctCountS s)
      if max_entropy = 0 then _build_skipped_check "entropy" "entropy ratio unavailable"
      else
        let entropy_ratio := entropy / max_entropy
        let passed := decide ((3/10 : ℚ) ≤ entropy_ratio)
        let severity := if ¬passed ∧ entropy_ratio < (1/10 : ℚ) then "critical" else "warning"
        let message :=
          if passed then "Entropy ratio " ++ fmtF entropy_ratio ++ " is acceptable."
          else "Entropy ratio " ++ fmtF entropy_ratio ++ " suggests low variability."
        _build_check "entropy" passed severity message
          [("entropy", .mnum entropy), ("entropy_ratio", .mnum entropy_ratio),
           ("distinct_count", .mnum (distinctCountS s : ℚ)),
           ("warning_ratio", .mnum (3/10)), ("critical_ratio", .mnum (1/10))]

/-- The distinct/dominant/entropy block: skipped wholesale when the column
has no non-null values. -/
def distinctSection (entF : List ℕ → ℚ) (log2F : ℕ → ℚ) (s : Series) :
    List ColumnCheckResult :=
  if nonNullCount s ≠ 0 then
    [distinct_ratio_check s, dominant_category_check s, entropy_check entF log2F s]
  else
    [_build_skipped_check "distinct_ratio" "no non-null values",
     _build_skipped_check "dominant_category" "no non-null values",
     _build_skipped_check "entropy" "no non-null values"]

/-! ### Numeric profile -/

def numVals (s : Series) : List ℚ := (_numeric_series s).map Prod.snd

def minQ : List ℚ → ℚ
  | [] => 0
  | x :: xs => xs.foldl min x

def maxQ : List ℚ → ℚ
  | [] => 0
  | x :: xs => xs.foldl max x

def meanS (s : Series) : ℚ := meanQ (numVals s)

def medianS (s : Series) : ℚ := medianQ (numVals s)

/-- Population variance; `0.0` when there are fewer than 2 numeric values
(the code sets both `std` and `variance` to `0.0` then). -/
def varS (s : Series) : ℚ :=
  if 2 ≤ (numVals s).length then varianceQ (numVals s) else 0

def q1S (s : Series) : ℚ := quantileLinear (numVals s) (1/4)

def q3S (s : Series) : ℚ := quantileLinear (numVals s) (3/4)

def iqrS (s : Series) : ℚ := q3S s - q1S s

def madS (s : Series) : ℚ := madQ (numVals s)

/-- `|x - mean| / std > 3`, decided through squares
(`(x - mean)^2 > 9·variance`, equivalent since `std = √variance ≥ 0`). -/
def zMask (s : Series) (kv : ℕ × ℚ) : Bool :=
  decide (9 * varS s < (kv.2 - meanS s) ^ 2)

def zOutlierCount (s : Series) : ℕ := (_numeric_series s).countP (zMask s)

def zOutlierRatioQ (s : Series) : ℚ :=
  (zOutlierCount s : ℚ) / ((numVals s).length : ℚ)

def zIndices (s : Series) : List ℕ :=
  ((_numeric_series s).filter (zMask s)).map Prod.fst

def lowerFence (s : Series) : ℚ := q1S s - 3/2 * iqrS s

def upperFence (s : Series) : ℚ := q3S s + 3/2 * iqrS s

def iqrMask (s : Series) (kv : ℕ × ℚ) : Bool :=
  decide (kv.2 < lowerFence s) || decide (upperFence s < kv.2)

def iqrOutlierCount (s : Series) : ℕ := (_numeric_series s).countP (iqrMask s)

def iqrOutlierRatioQ (s : Series) : ℚ :=
  (iqrOutlierCount s : ℚ) / ((numVals s).length : ℚ)

def iqrIndices (s : Series) : List ℕ :=
  ((_numeric_series s).filter (iqrMask s)).map Prod.fst

/-- `|0.6745 * (x - median) / mad| > 3.5` (all quantities rational). -/
def modZMask (s : Series) (kv : ℕ × ℚ) : Bool :=
  decide ((7/2 : ℚ) < |6745/10000 * (kv.2 - medianS s) / madS s|)

def modZOutlierCount (s : Series) : ℕ := (_numeric_series s).countP (modZMask s)

def modZOutlierRatioQ (s : Series) : ℚ :=
  (modZOutlierCount s : ℚ) / ((numVals s).length : ℚ)

def modZIndices (s : Series) : List ℕ :=
  ((_numeric_series s).filter (modZMask s)).map Prod.fst

/-- `Σ (x - mean)^k`. -/
def centralMoment (l : List ℚ) (k : ℕ) : ℚ :=
  (l.map fun x => (x - meanQ l) ^ k).sum

/-- The square of pandas' adjusted skewness
`count·(count-1)^0.5/(count-2) · m3/m2^1.5`, with `nanops`' zero-out of a
zero `m2` (the skewness itself is `sign m3 · √skewSqS`). -/
def skewSqS (s : Series) : ℚ :=
  let l := numVals s
  let n : ℚ := (l.length : ℚ)
  let m2 := centralMoment l 2
  let m3 := centralMoment l 3
  if m2 = 0 then 0 else n ^ 2 * (n - 1) * m3 ^ 2 / ((n - 2) ^ 2 * m2 ^ 3)

/-- The signed square encoding the skewness value for the metrics bag. -/
def skewSignedSqS (s : Series) : ℚ :=
  if centralMoment (numVals s) 3 < 0 then -skewSqS s else skewSqS s

/-- `pd.notna(series.skew())` is false never: for `count ≥ 3` pandas'
`nanskew` returns `0.0` (not NaN) when `m2 == 0`. -/
def skewnessNa (_s : Series) : Bool := false

/-- pandas' adjusted kurtosis (`nankurt`): NaN for fewer than 4 values,
`0.0` when the zeroed-out denominator vanishes, and otherwise
`n(n+1)(n-1)·m4 / ((n-2)(n-3)·m2²) - 3(n-1)²/((n-2)(n-3))` — a rational. -/
def kurtOptS (s : Series) : Option ℚ :=
  let l := numVals s
  if l.length < 4 then none
  else
    let n : ℚ := (l.length : ℚ)
    let m2 := centralMoment l 2
    let m4 := centralMoment l 4
    some (if m2 = 0 then 0
      else n * (n + 1) * (n - 1) * m4 / ((n - 2) * (n - 3) * m2 ^ 2) -
        3 * (n - 1) ^ 2 / ((n - 2) * (n - 3)))

/-- The `low_variance` check (`std ≤ 1e-9` decided through
`variance ≤ (1e-9)²`). -/
def low_variance_check (s : Series) : ColumnCheckResult :=
  let metrics : Bag :=
    [("std_dev", .msqrt (varS s)), ("threshold", .mnum LOW_VARIANCE_THRESHOLD)]
  if varS s ≤ LOW_VARIANCE_THRESHOLD ^ 2 then
    _build_check "low_variance" false "warning"
      "Column exhibits near-zero variance." metrics
  else
    _build_check "low_variance" true "warning"
      "Column variance is within expected range." metrics

/-- The `z_score_outliers` check (`std == 0` iff `variance == 0`). -/
def z_score_check (s : Series) : ColumnCheckResult :=
  if varS s = 0 then
    _build_skipped_check "z_score_outliers"
      "standard deviation is zero; z-score detection unavailable"
  else
    let outlier_ratio := zOutlierRatioQ s
    let passed := decide (outlier_ratio ≤ OUTLIER_RATIO_WARNING_THRESHOLD)
    let severity :=
      if OUTLIER_RATIO_CRITICAL_THRESHOLD ≤ outlier_ratio then "critical" else "warning"
    let summary :=
      if zOutlierCount s ≠ 0 then
        some (_build_anomaly_summary s (zIndices s) (some (_numeric_series s)))
      else none
    let message :=
      if passed then "Z-score outlier ratio " ++ fmtPct outlier_ratio ++ " is acceptable."
      else "Z-score outlier ratio " ++ fmtPct outlier_ratio ++ " exceeds " ++
        fmtPct OUTLIER_RATIO_WARNING_THRESHOLD ++ "."
    _build_check "z_score_outliers" passed severity message
      [("outlier_count", .mnum (zOutlierCount s : ℚ)),
       ("outlier_ratio", .mnum outlier_ratio),
       ("threshold", .mnum OUTLIER_RATIO_WARNING_THRESHOLD),
       ("critical_threshold", .mnum OUTLIER_RATIO_CRITICAL_THRESHOLD)]
      ((summary.map (·.samples)).getD [])
      (summary.map locationsOf)

/-- The `iqr_outliers` check. -/
def iqr_outliers_check (s : Series) : ColumnCheckResult :=
  if iqrS s = 0 then
    _build_skipped_check "iqr_outliers"
      "interquartile range is zero; cannot compute fences"
  else
    let outlier_ratio := iqrOutlierRatioQ s
    let passed := decide (outlier_ratio ≤ OUTLIER_RATIO_WARNING_THRESHOLD)
    let severity :=
      if OUTLIER_RATIO_CRITICAL_THRESHOLD ≤ outlier_ratio then "critical" else "warning"
    let summary :=
      if iqrOutlierCount s ≠ 0 then
        some (_build_anomaly_summary s (iqrIndices s) (some (_numeric_series s)))
      else none
    let message :=
      if passed then "IQR outlier ratio " ++ fmtPct outlier_ratio ++ " is acceptable."
      else "IQR outlier ratio " ++ fmtPct outlier_ratio ++ " exceeds " ++
        fmtPct OUTLIER_RATIO_WARNING_THRESHOLD ++ "."
    _build_check "iqr_outliers" passed severity message
      [("outlier_count", .mnum (iqrOutlierCount s : ℚ)),
       ("outlier_ratio", .mnum outlier_ratio),
       ("threshold", .mnum OUTLIER_RATIO_WARNING_THRESHOLD),
       ("lower_fence", .mnum (lowerFence s)), ("upper_fence", .mnum (upperFence s)),
       ("critical_threshold", .mnum OUTLIER_RATIO_CRITICAL_THRESHOLD)]
      ((summary.map (·.samples)).getD [])
      (summary.map locationsOf)

/-- The `modified_z_score` check. -/
def modified_z_score_check (s : Series) : ColumnCheckResult :=
  if madS s = 0 then
    _build_skipped_check "modified_z_score"
      "median absolute deviation is zero; cannot compute modified z-scores"
  else
    let outlier_ratio := modZOutlierRatioQ s
    let passed := decide (outlier_ratio ≤ OUTLIER_RATIO_WARNING_THRESHOLD)
    let severity :=
      if OUTLIER_RATIO_CRITICAL_THRESHOLD ≤ outlier_ratio then "critical" else "warning"
    let summary :=
      if modZOutlierCount s ≠ 0 then
        some (_build_anomaly_summary s (modZIndices s) (some (_numeric_series s)))
      else none
    let message :=
      if passed then "Modified z-score outlier ratio " ++ fmtPct outlier_ratio ++
        " is acceptable."
      else "Modified z-score outlier ratio " ++ fmtPct outlier_ratio ++ " exceeds " ++
        fmtPct OUTLIER_RATIO_WARNING_THRESHOLD ++ "."
    _build_check "modified_z_score" passed severity message
      [("outlier_count", .mnum (modZOutlierCount s : ℚ)),
       ("outlier_ratio", .mnum outlier_ratio),
       ("threshold", .mnum OUTLIER_RATIO_WARNING_THRESHOLD),
       ("critical_threshold", .mnum OUTLIER_RATIO_CRITICAL_THRESHOLD)]
      ((summary.map (·.samples)).getD [])
      (summary.map locationsOf)

/-- The `skewness` check (`|skew| ≤ 2` decided through `skew² ≤ 4`,
`|skew| ≥ 4` through `skew² ≥ 16`). -/
def skewness_check (s : Series) : ColumnCheckResult :=
  if skewnessNa s then
    _build_skipped_check "skewness" "skewness undefined for constant series"
  else
    let passed_skew := decide (skewSqS s ≤ SKEWNESS_WARNING_THRESHOLD ^ 2)
    let severity :=
      if ¬passed_skew ∧ (SKEWNESS_WARNING_THRESHOLD * 2) ^ 2 ≤ skewSqS s then "critical"
      else "warning"
    let message :=
      if passed_skew then "Skewness " ++ fmtF (skewSignedSqS s) ++
        " is within expected bounds."
      else "Skewness " ++ fmtF (skewSignedSqS s) ++ " exceeds the threshold."
    _build_check "skewness" passed_skew severity message
      [("skewness", .msqrt (skewSignedSqS s)),
       ("threshold", .mnum SKEWNESS_WARNING_THRESHOLD),
       ("critical_threshold", .mnum (SKEWNESS_WARNING_THRESHOLD * 2))]

/-- The `kurtosis` check. -/
def kurtosis_check (s : Series) : ColumnCheckResult :=
  match kurtOptS s with
  | none => _build_skipped_check "kurtosis" "kurtosis undefined for constant series"
  | some kurt =>
    let passed_kurt := decide (|kurt| ≤ KURTOSIS_WARNING_THRESHOLD)
    let severity :=
      if ¬passed_kurt ∧ KURTOSIS_WARNING_THRESHOLD * 2 ≤ |kurt| then "critical"
      else "warning"
    let message :=
      if passed_kurt then "Kurtosis " ++ fmtF kurt ++ " is within expected bounds."
      else "Kurtosis " ++ fmtF kurt ++ " exceeds the threshold."
    _build_check "kurtosis" passed_kurt severity message
      [("kurtosis", .mnum kurt), ("threshold", .mnum KURTOSIS_WARNING_THRESHOLD),
       ("critical_threshold", .mnum (KURTOSIS_WARNING_THRESHOLD * 2))]

/-- Skewness/kurtosis checks, skipped below 3 numeric values. -/
def skewKurtSection (s : Series) : List ColumnCheckResult :=
  if 3 ≤ (numVals s).length then [skewness_check s, kurtosis_check s]
  else
    [_build_skipped_check "skewness" "at least three numeric values required",
     _build_skipped_check "kurtosis" "at least three numeric values required"]

/-- All numeric-profile checks in emission order. -/
def numericSection (s : Series) : List ColumnCheckResult :=
  [low_variance_check s, z_score_check s, iqr_outliers_check s,
   modified_z_score_check s] ++ skewKurtSection s

/-! ### Metrics bag and assembled `analyze_column` -/

def topValOpt (s : Series) : Option Val := (_dominant_value (nonNullVals s)).1

def topRatioOpt (s : Series) : Option ℚ := (_dominant_value (nonNullVals s)).2

/-- total/null/non-null counts and the longest null run. -/
def baseMetrics (s : Series) : Bag :=
  [("total_count", .mnum (totalCount s : ℚ)),
   ("null_count", .mnum (nullCount s : ℚ)),
   ("null_ratio", if totalCount s = 0 then .mnull else .mnum (nullRatioQ s)),
   ("non_null_count", .mnum (nonNullCount s : ℚ)),
   ("longest_null_run", .mnum (longestNullRun s : ℚ))]

/-- The `entropy_ratio` metrics entry, written only on the path that reaches
the ratio computation (entropy defined and more than one distinct value). -/
def entropyRatioEntry (entF : List ℕ → ℚ) (log2F : ℕ → ℚ) (s : Series) : Bag :=
  match entropyOptS entF s with
  | none => []
  | some entropy =>
    if distinctCountS s ≤ 1 then []
    else
      let max_entropy := log2F (distinctCountS s)
      [("entropy_ratio", if max_entropy = 0 then .mnull else .mnum (entropy / max_entropy))]

/-- The distinct/dominant/entropy metrics keys, in the two insertion orders
of the code (`duplicate_count` comes last on the all-null path). -/
def distinctMetrics (entF : List ℕ → ℚ) (log2F : ℕ → ℚ) (s : Series) : Bag :=
  if nonNullCount s ≠ 0 then
    [("distinct_count", .mnum (distinctCountS s : ℚ)),
     ("distinct_ratio", ((distinctRatioOpt s).map .mnum).getD .mnull),
     ("duplicate_count", .mnum (duplicateCount s : ℚ)),
     ("most_frequent_value", ((topValOpt s).map _json_safe).getD .mnull),
     ("most_frequent_ratio", ((topRatioOpt s).map .mnum).getD .mnull),
     ("entropy", ((entropyOptS entF s).map .mnum).getD .mnull)] ++
      entropyRatioEntry entF log2F s
  else
    [("distinct_count", .mnum 0), ("distinct_ratio", .mnull),
     ("most_frequent_value", .mnull), ("most_frequent_ratio", .mnull),
     ("entropy", .mnull), ("duplicate_count", .mnum 0)]

/-- The numeric-profile metrics keys (`std_dev` and `skewness` through the
`msqrt` encoding). -/
def numericMetrics (s : Series) : Bag :=
  [("inferred_type", .mstr "numeric"),
   ("sum", .mnum (numVals s).sum), ("mean", .mnum (meanS s)),
   ("min", .mnum (minQ (numVals s))), ("max", .mnum (maxQ (numVals s))),
   ("median", .mnum (medianS s)),
   ("std_dev", .msqrt (varS s)), ("variance", .mnum (varS s)),
   ("q1", .mnum (q1S s)), ("q3", .mnum (q3S s)), ("iqr", .mnum (iqrS s)),
   ("mad", .mnum (madS s))] ++
  (if 3 ≤ (numVals s).length then
    [("skewness", .msqrt (skewSignedSqS s)),
     ("kurtosis", ((kurtOptS s).map .mnum).getD .mnull)]
  else [("skewness", .mnull), ("kurtosis", .mnull)])

/-- The full metrics bag of `analyze_column`, in insertion order. -/
def analyze_column_metrics (entF : List ℕ → ℚ) (log2F : ℕ → ℚ) (s : Series) : Bag :=
  baseMetrics s ++ distinctMetrics entF log2F s ++
  (if _numeric_series s = [] then [("inferred_type", .mstr "categorical")]
   else numericMetrics s)

/-- The ordered checks list of `analyze_column`: the null checks, the
distinct/dominant/entropy block, then either the skipped `numeric_profile`
gate (categorical early return) or the numeric checks. -/
def analyze_column_checks (entF : List ℕ → ℚ) (log2F : ℕ → ℚ) (s : Series) :
    List ColumnCheckResult :=
  nullSection s ++ distinctSection entF log2F s ++
  (if _numeric_series s = [] then
    [_build_skipped_check "numeric_profile" "column does not contain numeric data"]
  else numericSection s)

/-- `analyze_column`.  Both return sites of the Python function build the
`ColumnStatistics` from the accumulated metrics and checks with
`issue_summary = _summarise_checks(checks)`. -/
def analyze_column (entF : List ℕ → ℚ) (log2F : ℕ → ℚ) (table column : String)
    (series : Series) : ColumnStatistics :=
  let checks := analyze_column_checks entF log2F series
  ⟨table, column, analyze_column_metrics entF log2F series, checks,
    _summarise_checks checks⟩

/-! ## Table / dataset aggregation and alert candidates -/

/-- The `metrics` dict of a `TableStatistics`. -/
structure TableMetrics where
  cell_count : ℕ
  null_cell_count : ℕ
  null_cell_ratio : Option ℚ
  failed_check_ratio_per_column : Option ℚ
  max_null_run : ℕ
deriving DecidableEq

/-- The `issue_summary` dict of a `TableStatistics`. -/
structure TableIssueSummary where
  failed_checks : ℕ
  warning_checks : ℕ
  critical_checks : ℕ
  failed_column_count : ℕ
  critical_column_count : ℕ
  columns_with_issues : List String
  critical_columns : List String
deriving DecidableEq

structure TableStatistics where
  table : String
  row_count : ℕ
  column_count : ℕ
  metrics : TableMetrics
  issue_summary : TableIssueSummary
deriving DecidableEq

/-- The dataset-level metrics dict of `compute_statistics`. -/
structure DatasetMetrics where
  table_count : ℕ
  column_count : ℕ
  row_count : ℕ
  cell_count : ℕ
  null_cell_count : ℕ
  null_cell_ratio : Option ℚ
  failed_checks : ℕ
  warning_checks : ℕ
  critical_checks : ℕ
  failed_column_count : ℕ
  critical_column_count : ℕ
  columns_with_issues : List String
  critical_columns : List String
  max_null_run : ℕ
deriving DecidableEq

structure DatasetStatistics where
  generated_at : String
  columns : List ColumnStatistics
  tables : List TableStatistics
  metrics : DatasetMetrics
deriving DecidableEq

/-- The `details` payload of an alert: the column-alert dict and the
table-alert dict carry different keys. -/
inductive AlertDetails
  | columnD (table column check_name message : String) (metrics : Bag)
      (samples : List Sample) (locations : Option Locations)
      (row_context : List ContextBlock) (column_metrics : Bag)
      (issue_summary : IssueSummary)
  | tableD (table : String) (metrics : TableMetrics)
      (issue_summary : TableIssueSummary)
deriving DecidableEq

/-- `AlertCandidate` (`triggered_at` is the abstract timestamp type `ℤ`). -/
structure AlertCandidate where
  table : String
  column : Option String
  check_name : String
  name : String
  severity : String
  message : String
  details : AlertDetails
  triggered_at : ℤ
deriving DecidableEq

/-- `df[column]`: the series of one column (values aligned by the first
matching column name, missing cells null). -/
def dfColumn (df : DFrame) (c : String) : Series :=
  df.rows.map fun r =>
    (r.1, (((df.cols.zip r.2).find? fun e => e.1 = c).map Prod.snd).getD .vnull)

/-- The message of a table-level summary alert. -/
def table_alert_message (ts : TableStatistics) : String :=
  if ts.issue_summary.critical_checks ≠ 0 then
    "Table '" ++ ts.table ++ "' has " ++ fmtN ts.issue_summary.critical_checks ++
      " critical and " ++ fmtN ts.issue_summary.warning_checks ++
      " warning column checks failing."
  else
    "Table '" ++ ts.table ++ "' has " ++ fmtN ts.issue_summary.warning_checks ++
      " warning column checks failing."

/-- `build_alert_candidates`.  `parseIso` models `datetime.fromisoformat`
(`none` for a `ValueError`) and `now` models the `datetime.utcnow()`
fallback; both are taken once at the start of the call. -/
def build_alert_candidates (parseIso : String → Option ℤ) (now : ℤ)
    (dataset : List (String × DFrame)) (statistics : DatasetStatistics)
    (max_context_rows : ℕ := MAX_ALERT_CONTEXT_ROWS) : List AlertCandidate :=
  let triggered_at := (parseIso statistics.generated_at).getD now
  let colAlerts := statistics.columns.flatMap fun cs =>
    let df := (dataset.find? fun e => e.1 = cs.table).map Prod.snd
    (cs.checks.filter fun check => !check.passed).map fun check =>
      let row_context : List ContextBlock :=
        match df with
        | none => []
        | some d =>
          if cs.column ∈ d.cols ∧ check.locations ≠ none then
            _extract_row_context d cs.column check.locations max_context_rows
          else []
      { table := cs.table
        column := some cs.column
        check_name := check.name
        name := cs.table ++ "." ++ cs.column ++ "::" ++ check.name
        severity := if check.severity = "" then "warning" else check.severity
        message := check.message
        details := .columnD cs.table cs.column check.name check.message
          check.metrics check.samples check.locations row_context
          cs.metrics cs.issue_summary
        triggered_at := triggered_at }
  let tblAlerts := statistics.tables.filterMap fun ts =>
    if ts.issue_summary.failed_checks = 0 then none
    else
      some
        { table := ts.table
          column := none
          check_name := "table_summary"
          name := ts.table ++ "::summary_issues"
          severity :=
            if 0 < ts.issue_summary.critical_checks then "critical" else "warning"
          message := table_alert_message ts
          details := .tableD ts.table ts.metrics ts.issue_summary
          triggered_at := triggered_at }
  colAlerts ++ tblAlerts

/-- `int(col.metrics.get(key) or 0)` for the integer-valued metric keys. -/
def getNat (b : Bag) (k : String) : ℕ :=
  match b.lookup k with
  | some (.mnum q) => q.num.toNat
  | _ => 0

/-- One table's registry state in `compute_statistics`. -/
structure TableInfo where
  row_count : ℕ
  column_count : ℕ
  columns : List ColumnStatistics
deriving DecidableEq

/-- One iteration of the first loop of `compute_statistics`:
`setdefault` the table entry, overwrite its counts, append its columns. -/
def registryStep (entF : List ℕ → ℚ) (log2F : ℕ → ℚ)
    (reg : List (String × TableInfo)) (entry : String × DFrame) :
    List (String × TableInfo) :=
  let row_count := entry.2.rows.length
  let column_count := entry.2.cols.length
  let colStats := entry.2.cols.map fun c =>
    analyze_column entF log2F entry.1 c (dfColumn entry.2 c)
  if reg.any fun e => e.1 = entry.1 then
    reg.map fun e =>
      if e.1 = entry.1 then (e.1, ⟨row_count, column_count, e.2.columns ++ colStats⟩)
      else e
  else reg ++ [(entry.1, ⟨row_count, column_count, colStats⟩)]

def infoNullCells (i : TableInfo) : ℕ :=
  (i.columns.map fun col => getNat col.metrics "null_count").sum

def infoFailed (i : TableInfo) : ℕ :=
  (i.columns.map fun col => col.issue_summary.failed_checks).sum

def infoWarning (i : TableInfo) : ℕ :=
  (i.columns.map fun col => col.issue_summary.warning_checks).sum

def infoCritical (i : TableInfo) : ℕ :=
  (i.columns.map fun col => col.issue_summary.critical_checks).sum

/-- The set `{col.column : failed_checks > 0}` (first-occurrence dedup). -/
def infoIssueColumns (i : TableInfo) : List String :=
  ((i.columns.filter fun col => 0 < col.issue_summary.failed_checks).map
    (·.column)).dedup

/-- The set `{col.column : critical_checks > 0}`. -/
def infoCriticalColumns (i : TableInfo) : List String :=
  ((i.columns.filter fun col => 0 < col.issue_summary.critical_checks).map
    (·.column)).dedup

/-- `max(longest_null_run)` over the columns (`0` for a column-less table). -/
def infoMaxNullRun (i : TableInfo) : ℕ :=
  (i.columns.map fun col => getNat col.metrics "longest_null_run").foldr max 0

/-- `sorted(…)` of a set of strings. -/
def sortStrSet (l : List String) : List String :=
  l.dedup.insertionSort (· ≤ ·)

/-- The `TableStatistics` built for one registry entry. -/
def tableSummaryOf (table_name : String) (info : TableInfo) : TableStatistics :=
  let cell_count := info.row_count * info.column_count
  { table := table_name
    row_count := info.row_count
    column_count := info.column_count
    metrics :=
      { cell_count := cell_count
        null_cell_count := infoNullCells info
        null_cell_ratio :=
          if cell_count = 0 then none
          else some ((infoNullCells info : ℚ) / (cell_count : ℚ))
        failed_check_ratio_per_column :=
          if info.column_count = 0 then none
          else some ((infoFailed info : ℚ) / (info.column_count : ℚ))
        max_null_run := infoMaxNullRun info }
    issue_summary :=
      { failed_checks := infoFailed info
        warning_checks := infoWarning info
        critical_checks := infoCritical info
        failed_column_count := (infoIssueColumns info).length
        critical_column_count := (infoCriticalColumns info).length
        columns_with_issues := sortStrSet (infoIssueColumns info)
        critical_columns := sortStrSet (infoCriticalColumns info) } }

/-- `compute_statistics` (`generated_at` stands for the
`datetime.utcnow().isoformat()` stamp). -/
def compute_statistics (entF : List ℕ → ℚ) (log2F : ℕ → ℚ)
    (generated_at : String) (dataset : List (String × DFrame)) :
    DatasetStatistics :=
  let column_results := dataset.flatMap fun e =>
    e.2.cols.map fun c => analyze_column entF log2F e.1 c (dfColumn e.2 c)
  let registry := dataset.foldl (registryStep entF log2F) []
  let tables := registry.map fun e => tableSummaryOf e.1 e.2
  let total_cells := (registry.map fun e => e.2.row_count * e.2.column_count).sum
  { generated_at := generated_at
    columns := column_results
    tables := tables
    metrics :=
      { table_count := registry.length
        column_count := column_results.length
        row_count := (registry.map fun e => e.2.row_count).sum
        cell_count := total_cells
        null_cell_count := (registry.map fun e => infoNullCells e.2).sum
        null_cell_ratio :=
          if total_cells = 0 then none
          else some (((registry.map fun e => infoNullCells e.2).sum : ℚ) / (total_cells : ℚ))
        failed_checks := (registry.map fun e => infoFailed e.2).sum
        warning_checks := (registry.map fun e => infoWarning e.2).sum
        critical_checks := (registry.map fun e => infoCritical e.2).sum
        failed_column_count :=
          ((registry.flatMap fun e =>
            (infoIssueColumns e.2).map fun c => e.1 ++ "." ++ c).dedup).length
        critical_column_count :=
          ((registry.flatMap fun e =>
            (infoCriticalColumns e.2).map fun c => e.1 ++ "." ++ c).dedup).length
        columns_with_issues :=
          sortStrSet (registry.flatMap fun e =>
            (infoIssueColumns e.2).map fun c => e.1 ++ "." ++ c)
        critical_columns :=
          sortStrSet (registry.flatMap fun e =>
            (infoCriticalColumns e.2).map fun c => e.1 ++ "." ++ c)
        max_null_run := (registry.map fun e => infoMaxNullRun e.2).foldr max 0 } }

/-- A check rendered in the "skipped" shape: passed, severity `"info"`, and a
populated `reason` metric. -/
def IsSkippedCheck (c : ColumnCheckResult) : Prop :=
  c.passed = true ∧ c.severity = "info" ∧
    ∃ r, c.metrics.lookup "reason" = some (.mstr r)

/-- The `row_context` entry of an alert's details (empty for table alerts). -/
def detailsRowContext : AlertDetails → List ContextBlock
  | .columnD _ _ _ _ _ _ _ rc _ _ => rc
  | .tableD _ _ _ => []

/-- The non-skipped block of `_extract_row_context` for one row range. -/
def contextBlockFor (df : DFrame) (column : String) (max_rows : ℕ)
    (rr : RowRange) : ContextBlock :=
  let total_rows := df.rows.length
  let start := rr.start
  let stop := if rr.stop < start then start else rr.stop
  let resolved_end := min stop (total_rows - 1)
  let limit := min (resolved_end + 1) (start + max_rows)
  let subset := (df.rows.drop start).take (limit - start)
  let samples := subset.enum.map fun oe =>
    { row_number := start + oe.1
      row_index := oe.2.1
      value :=
        match (df.cols.zip oe.2.2).find? fun e => e.1 = column with
        | some e => _json_safe e.2
        | none => .mnull
      row_snapshot := rowSnapshot df.cols oe.2.2 : RowSample }
  ⟨rr, samples⟩

/-- The registry entry `compute_statistics` builds for one dataset entry. -/
def tableInfoOf (entF : List ℕ → ℚ) (log2F : ℕ → ℚ) (e : String × DFrame) :
    TableInfo :=
  ⟨e.2.rows.length, e.2.cols.length,
    e.2.cols.map fun c => analyze_column entF log2F e.1 c (dfColumn e.2 c)⟩

/-- The row context `build_alert_candidates` attaches to a column alert:
present when the table's data is found, the column exists in it, and the
check carries locations. -/
def alertRowContext (dataset : List (String × DFrame)) (max_context_rows : ℕ)
    (cs : ColumnStatistics) (check : ColumnCheckResult) : List ContextBlock :=
  match (dataset.find? fun e => e.1 = cs.table).map Prod.snd with
  | none => []
  | some d =>
    if cs.column ∈ d.cols ∧ check.locations ≠ none then
      _extract_row_context d cs.column check.locations max_context_rows
    else []

/-- The output of `build_alert_candidates` as the claim describes it: first
exactly one candidate per failing column check, in column/check iteration
order, named `table.column::check_name` with severity and message copied
verbatim from the check and details bundling the check payload plus the
owning column's metrics and issue summary; then exactly one
`table::summary_issues` candidate (column null) per table with
`failed_checks > 0`, severity `"critical"` iff the table's
`critical_checks` count is positive; nothing else. -/
def specAlertCandidates (parseIso : String → Option ℤ) (now : ℤ)
    (dataset : List (String × DFrame)) (statistics : DatasetStatistics)
    (max_context_rows : ℕ := MAX_ALERT_CONTEXT_ROWS) : List AlertCandidate :=
  let triggered := (parseIso statistics.generated_at).getD now
  (statistics.columns.flatMap fun cs =>
    (cs.checks.filter fun check => !check.passed).map fun check =>
      { table := cs.table
        column := some cs.column
        check_name := check.name
        name := cs.table ++ "." ++ cs.column ++ "::" ++ check.name
        severity := check.severity
        message := check.message
        details := .columnD cs.table cs.column check.name check.message
          check.metrics check.samples check.locations
          (alertRowContext dataset max_context_rows cs check)
          cs.metrics cs.issue_summary
        triggered_at := triggered }) ++
  (statistics.tables.filter fun ts => 0 < ts.issue_summary.failed_checks).map
    fun ts =>
      { table := ts.table
        column := none
        check_name := "table_summary"
        name := ts.table ++ "::summary_issues"
        severity :=
          if 0 < ts.issue_summary.critical_checks then "critical" else "warning"
        message := table_alert_message ts
        details := .tableD ts.table ts.metrics ts.issue_summary
        triggered_at := triggered }

/-! ### Concrete inputs for the worked examples -/

/-- A trivial entropy parameter for concrete runs (the entropy checks on the
concrete inputs below are decided before the parameter is consulted or pass
with ratio `1`). -/
def ent1 : List ℕ → ℚ := fun _ => 1

/-- A trivial `log2` parameter for concrete runs. -/
def log1 : ℕ → ℚ := fun _ => 1

/-- The series `[5, 5, 5, 5, 5]` of §8 of the spec. -/
def s55 : Series :=
  [(0, .vnum 5), (1, .vnum 5), (2, .vnum 5), (3, .vnum 5), (4, .vnum 5)]

/-- A 12-row single-column table with nulls at the 6 even positions and
distinct non-numeric values elsewhere: its `null_ratio` check fails (ratio
`0.5`, severity `"critical"`) with 6 singleton row ranges, and it is the
column's only failing check. -/
def df12 : DFrame :=
  ⟨["v"],
   [(0, [Val.vnull]), (1, [Val.vstr "a"]), (2, [Val.vnull]),
    (3, [Val.vstr "b"]), (4, [Val.vnull]), (5, [Val.vstr "c"]),
    (6, [Val.vnull]), (7, [Val.vstr "d"]), (8, [Val.vnull]),
    (9, [Val.vstr "e"]), (10, [Val.vnull]), (11, [Val.vstr "f"])]⟩

def exDataset12 : List (String × DFrame) := [("tbl", df12)]

/-- A one-column, one-table `DatasetStatistics` input with a single failing
warning check, used to exercise the alert builder on concrete input. -/
def exFailingCheck : ColumnCheckResult :=
  { name := "null_ratio", passed := false, severity := "warning"
    message := "m", metrics := [], samples := [], locations := none }

def exColumnStats : ColumnStatistics :=
  { table := "t", column := "c", metrics := []
    checks := [exFailingCheck]
    issue_summary := _summarise_checks [exFailingCheck] }

def exTableStats : TableStatistics :=
  { table := "t", row_count := 1, column_count := 1
    metrics := ⟨1, 0, some 0, some 1, 0⟩
    issue_summary := ⟨1, 1, 0, 1, 0, ["c"], []⟩ }

def zeroDatasetMetrics : DatasetMetrics :=
  ⟨0, 0, 0, 0, 0, none, 0, 0, 0, 0, 0, [], [], 0⟩

/-- The dataset statistics of the 12-row table, as produced by the column
profiler for its one column. -/
def exStats12 : DatasetStatistics :=
  ⟨"g", [analyze_column ent1 log1 "tbl" "v" (dfColumn df12 "v")], [],
    zeroDatasetMetrics⟩

def exStats : DatasetStatistics :=
  ⟨"g", [exColumnStats], [exTableStats], zeroDatasetMetrics⟩


/-- The table-level alert `build_alert_candidates` emits for `exStats`. -/
def exTableAlert : AlertCandidate :=
  { table := "t", column := none, check_name := "table_summary"
    name := "t::summary_issues", severity := "warning"
    message := table_alert_message exTableStats
    details := .tableD "t" exTableStats.metrics exTableStats.issue_summary
    triggered_at := 0 }


end Stats

namespace Stats

/-! ## C1: the issue summary is derived by counting the checks -/

/-- C1: for every `ColumnStatistics` returned by `analyze_column`,
`failed_checks` counts the checks with `passed = false`, `passed_checks` is
`total_checks - failed_checks`, `warning_checks`/`critical_checks` count the
failed checks of the respective severity, and
`critical_checks ≤ failed_checks`. -/
theorem C1_issue_summary_consistency (entF : List ℕ → ℚ) (log2F : ℕ → ℚ)
    (table column : String) (series : Series) :
    let st := analyze_column entF log2F table column series
    st.issue_summary.total_checks = st.checks.length ∧
    st.issue_summary.failed_checks = st.checks.countP (fun c => !c.passed) ∧
    st.issue_summary.passed_checks =
      st.issue_summary.total_checks - st.issue_summary.failed_checks ∧
    st.issue_summary.warning_checks =
      st.checks.countP (fun c => !c.passed && c.severity = "warning") ∧
    st.issue_summary.critical_checks =
      st.checks.countP (fun c => !c.passed && c.severity = "critical") ∧
    st.issue_summary.critical_checks ≤ st.issue_summary.failed_checks := by
  intro st
  refine ⟨rfl, rfl, rfl, rfl, rfl, ?_⟩
  exact List.countP_mono_left fun c _ h => by
    have h' : c.passed = false ∧ c.severity = "critical" := by simpa using h
    simp [h'.1]

/-! ## C4: anomaly summaries -/

theorem ranges_loop_ne_nil_head (l : List ℕ) :
    ∀ start prev count, ∃ r rs,
      _ranges_loop start prev count l = r :: rs ∧ r.start = start := by
  induction l with
  | nil => exact fun start prev count => ⟨⟨start, prev, count⟩, [], rfl, rfl⟩
  | cons pos rest ih =>
    intro start prev count
    unfold _ranges_loop
    split_ifs with h1 h2
    · exact ih start prev count
    · exact ih start pos (count + 1)
    · obtain ⟨r, rs, heq, hs⟩ := ih pos pos 1
      exact ⟨⟨start, prev, count⟩, _, rfl, rfl⟩

theorem ranges_loop_counts (l : List ℕ) :
    ∀ start prev count, start ≤ prev → count = prev - start + 1 →
      List.Chain (· < ·) prev l →
      ∀ r ∈ _ranges_loop start prev count l,
        r.start ≤ r.stop ∧ r.count = r.stop - r.start + 1 := by
  induction l with
  | nil =>
    intro start prev count hsp hc _ r hr
    simp only [_ranges_loop, List.mem_singleton] at hr
    subst hr
    exact ⟨hsp, hc⟩
  | cons pos rest ih =>
    intro start prev count hsp hc hch r hr
    rw [List.chain_cons] at hch
    unfold _ranges_loop at hr
    split_ifs at hr with h1 h2
    · omega
    · exact ih start pos (count + 1) (by omega) (by omega) hch.2 r hr
    · rcases List.mem_cons.1 hr with h | h
      · subst h; exact ⟨hsp, hc⟩
      · exact ih pos pos 1 le_rfl (by omega) hch.2 r h

theorem ranges_loop_gap_chain (l : List ℕ) :
    ∀ start prev count, List.Chain (· < ·) prev l →
      List.Chain' (fun a b => a.stop + 2 ≤ b.start)
        (_ranges_loop start prev count l) := by
  induction l with
  | nil => intro start prev count _; simp [_ranges_loop]
  | cons pos rest ih =>
    intro start prev count hch
    rw [List.chain_cons] at hch
    unfold _ranges_loop
    split_ifs with h1 h2
    · omega
    · exact ih start pos (count + 1) hch.2
    · obtain ⟨r, rs, heq, hs⟩ := ranges_loop_ne_nil_head rest pos pos 1
      rw [heq]
      refine List.Chain'.cons ?_ (heq ▸ ih pos pos 1 hch.2)
      have : prev < pos := hch.1
      simp only [hs]
      omega

theorem ranges_loop_cover (l : List ℕ) :
    ∀ start prev count, start ≤ prev → List.Chain (· < ·) prev l → ∀ n,
      ((∃ r ∈ _ranges_loop start prev count l, r.start ≤ n ∧ n ≤ r.stop) ↔
        (start ≤ n ∧ n ≤ prev) ∨ n ∈ l) := by
  induction l with
  | nil =>
    intro start prev count _ _ n
    simp [_ranges_loop]
  | cons pos rest ih =>
    intro start prev count hsp hch n
    rw [List.chain_cons] at hch
    have hlt : prev < pos := hch.1
    unfold _ranges_loop
    split_ifs with h1 h2
    · omega
    · rw [ih start pos (count + 1) (by omega) hch.2 n]
      subst h2
      simp only [List.mem_cons]
      constructor
      · rintro (⟨ha, hb⟩ | hm)
        · rcases Nat.lt_or_ge n (prev + 1) with h | h
          · exact Or.inl ⟨ha, by omega⟩
          · exact Or.inr (Or.inl (by omega))
        · exact Or.inr (Or.inr hm)
      · rintro (⟨ha, hb⟩ | h | hm)
        · exact Or.inl ⟨ha, by omega⟩
        · exact Or.inl ⟨by omega, by omega⟩
        · exact Or.inr hm
    · simp only [List.mem_cons]
      constructor
      · rintro ⟨r, rfl | hm, ha, hb⟩
        · exact Or.inl ⟨ha, hb⟩
        · rcases (ih pos pos 1 le_rfl hch.2 n).1 ⟨r, hm, ha, hb⟩ with ⟨ha', hb'⟩ | hm'
          · exact Or.inr (Or.inl (by omega))
          · exact Or.inr (Or.inr hm')
      · rintro (⟨ha, hb⟩ | h | hm)
        · exact ⟨_, Or.inl rfl, ha, hb⟩
        · obtain ⟨r, hm', ha, hb⟩ :=
            (ih pos pos 1 le_rfl hch.2 n).2 (Or.inl ⟨by omega, by omega⟩)
          exact ⟨r, Or.inr hm', ha, hb⟩
        · obtain ⟨r, hm', ha, hb⟩ := (ih pos pos 1 le_rfl hch.2 n).2 (Or.inr hm)
          exact ⟨r, Or.inr hm', ha, hb⟩

theorem mem_sortedDedup (l : List ℕ) (n : ℕ) : n ∈ sortedDedup l ↔ n ∈ l := by
  simp [sortedDedup, List.mem_insertionSort, List.mem_dedup]

theorem sortedDedup_sorted_lt (l : List ℕ) :
    List.Sorted (· < ·) (sortedDedup l) := by
  have hs : List.Sorted (· ≤ ·) (sortedDedup l) :=
    List.sorted_insertionSort (· ≤ ·) l.dedup
  have hn : (sortedDedup l).Nodup :=
    ((List.perm_insertionSort (· ≤ ·) l.dedup).nodup_iff).2 l.nodup_dedup
  exact (List.Pairwise.and hs hn).imp fun h => lt_of_le_of_ne h.1 h.2

theorem positions_to_ranges_spec (positions : List ℕ) :
    (∀ r ∈ _positions_to_ranges positions,
        r.start ≤ r.stop ∧ r.count = r.stop - r.start + 1) ∧
    List.Chain' (fun a b => a.stop + 2 ≤ b.start)
      (_positions_to_ranges positions) ∧
    (∀ n, (∃ r ∈ _positions_to_ranges positions, r.start ≤ n ∧ n ≤ r.stop) ↔
        n ∈ positions) := by
  unfold _positions_to_ranges
  split_ifs with hnil
  · subst hnil; simp
  · rcases hsd : sortedDedup positions with _ | ⟨p, rest⟩
    · refine ⟨by simp, by simp, fun n => ?_⟩
      have hmem := (mem_sortedDedup positions n)
      rw [hsd] at hmem
      simp only [List.not_mem_nil, false_iff] at hmem
      simp only [List.not_mem_nil, false_and, exists_const, false_iff]
      simpa using hmem
    · have hsorted := sortedDedup_sorted_lt positions
      rw [hsd] at hsorted
      have hch : List.Chain (· < ·) p rest := by
        rw [List.chain_iff_pairwise]
        exact hsorted
      refine ⟨ranges_loop_counts rest p p 1 le_rfl (by omega) hch,
        ranges_loop_gap_chain rest p p 1 hch, fun n => ?_⟩
      rw [ranges_loop_cover rest p p 1 le_rfl hch n, ← mem_sortedDedup positions n,
        hsd]
      simp only [List.mem_cons]
      constructor
      · rintro (h | h)
        · exact Or.inl (by omega)
        · exact Or.inr h
      · rintro (h | h)
        · exact Or.inl ⟨le_of_eq h.symm, le_of_eq h⟩
        · exact Or.inr h

theorem le_foldr_max (l : List ℕ) : ∀ x ∈ l, x ≤ l.foldr max 0 := by
  induction l with
  | nil => simp
  | cons a t ih =>
    intro x hx
    rcases List.mem_cons.1 hx with rfl | hx
    · exact le_max_left _ _
    · exact le_trans (ih x hx) (le_max_right _ _)

theorem foldr_max_mem (l : List ℕ) (h : l ≠ []) :
    l.foldr max 0 ∈ l ∨ l.foldr max 0 = 0 := by
  induction l with
  | nil => exact absurd rfl h
  | cons a t ih =>
    rcases eq_or_ne t [] with rfl | ht
    · simp
    · rcases ih ht with hm | h0
      · rcases le_total a (t.foldr max 0) with hle | hle
        · left
          simp only [List.foldr, max_eq_right hle]
          exact List.mem_cons_of_mem _ hm
        · left
          simp only [List.foldr, max_eq_left hle]
          exact List.mem_cons_self _ _
      · left
        simp only [List.foldr, h0, Nat.max_zero]
        exact List.mem_cons_self _ _

/-- The structural equalities of `_build_anomaly_summary`: its `row_ranges`
are `_positions_to_ranges` of the queue-resolved positions and its
`max_consecutive_run` is the fold of the range counts. -/
theorem build_anomaly_summary_shape (series : Series) (idxs : List ℕ)
    (vs : Option (List (ℕ × ℚ))) (maxS : ℕ) :
    (_build_anomaly_summary series idxs vs maxS).row_ranges =
      _positions_to_ranges (resolvedPositions (series.map Prod.fst) idxs) ∧
    (_build_anomaly_summary series idxs vs maxS).max_consecutive_run =
      (((_build_anomaly_summary series idxs vs maxS).row_ranges).map
        (·.count)).foldr max 0 := by
  by_cases h : idxs = []
  · subst h
    simp [_build_anomaly_summary, resolvedPositions, _resolve_loop,
      _positions_to_ranges]
  · unfold _build_anomaly_summary resolvedPositions
    rw [if_neg h]
    exact ⟨rfl, rfl⟩

/-- C4: each flagged occurrence is resolved through the per-distinct-key
position queues; the resulting row ranges are the merge of the resolved
positions: sorted, non-overlapping (next start at least 2 past the previous
end), with `count = end - start + 1`, covering exactly the resolved
positions, and `max_consecutive_run` is the largest range count. -/
theorem C4_anomaly_summary_ranges (series : Series) (idxs : List ℕ)
    (vs : Option (List (ℕ × ℚ))) (maxS : ℕ) :
    (_build_anomaly_summary series idxs vs maxS).row_ranges =
      _positions_to_ranges (resolvedPositions (series.map Prod.fst) idxs) ∧
    (∀ r ∈ (_build_anomaly_summary series idxs vs maxS).row_ranges,
      r.start ≤ r.stop ∧ r.count = r.stop - r.start + 1) ∧
    List.Chain' (fun a b => a.stop + 2 ≤ b.start)
      (_build_anomaly_summary series idxs vs maxS).row_ranges ∧
    (∀ n, (∃ r ∈ (_build_anomaly_summary series idxs vs maxS).row_ranges,
        r.start ≤ n ∧ n ≤ r.stop) ↔
      n ∈ resolvedPositions (series.map Prod.fst) idxs) ∧
    (∀ r ∈ (_build_anomaly_summary series idxs vs maxS).row_ranges,
      r.count ≤ (_build_anomaly_summary series idxs vs maxS).max_consecutive_run) ∧
    ((_build_anomaly_summary series idxs vs maxS).row_ranges = [] →
      (_build_anomaly_summary series idxs vs maxS).max_consecutive_run = 0) ∧
    ((_build_anomaly_summary series idxs vs maxS).row_ranges ≠ [] →
      (_build_anomaly_summary series idxs vs maxS).max_consecutive_run ∈
        (_build_anomaly_summary series idxs vs maxS).row_ranges.map (·.count)) := by
  obtain ⟨hrr, hmax⟩ := build_anomaly_summary_shape series idxs vs maxS
  obtain ⟨hcnt, hchain, hcover⟩ :=
    positions_to_ranges_spec (resolvedPositions (series.map Prod.fst) idxs)
  rw [← hrr] at hcnt hchain hcover
  refine ⟨hrr, hcnt, hchain, hcover, ?_, ?_, ?_⟩
  · intro r hr
    rw [hmax]
    exact le_foldr_max _ _ (List.mem_map_of_mem _ hr)
  · intro hnil
    rw [hmax, hnil]
    rfl
  · intro hnil
    rw [hmax]
    rcases foldr_max_mem (((_build_anomaly_summary series idxs vs
        maxS).row_ranges).map (·.count)) (by simpa using hnil) with hm | h0
    · exact hm
    · exfalso
      rcases List.exists_mem_of_ne_nil _ hnil with ⟨r, hr⟩
      have h1 := (hcnt r hr).2
      have h2 := le_foldr_max _ _ (List.mem_map_of_mem (·.count) hr)
      rw [h0] at h2
      have h3 : r.count ≤ 0 := by simpa using h2
      omega

/-! ## Check shapes and membership -/

@[simp] theorem vstr_ne_vnull (s : String) : ¬(Val.vstr s = Val.vnull) :=
  fun h => Val.noConfusion h

@[simp] theorem vnull_ne_vstr (s : String) : ¬(Val.vnull = Val.vstr s) :=
  fun h => Val.noConfusion h

@[simp] theorem vnum_ne_vnull (q : ℚ) : ¬(Val.vnum q = Val.vnull) :=
  fun h => Val.noConfusion h

@[simp] theorem vnull_ne_vnum (q : ℚ) : ¬(Val.vnull = Val.vnum q) :=
  fun h => Val.noConfusion h

@[simp] theorem vstr_ne_vnum (s : String) (q : ℚ) : ¬(Val.vstr s = Val.vnum q) :=
  fun h => Val.noConfusion h

@[simp] theorem vnum_ne_vstr (s : String) (q : ℚ) : ¬(Val.vnum q = Val.vstr s) :=
  fun h => Val.noConfusion h

@[simp] theorem _build_check_name (n : String) (p : Bool) (sev msg : String)
    (mt : Bag) (sp : List Sample) (lc : Option Locations) :
    (_build_check n p sev msg mt sp lc).name = n := rfl

@[simp] theorem _build_skipped_check_name (n r : String) :
    (_build_skipped_check n r).name = n := rfl

theorem isSkipped_skipped (n r : String) :
    IsSkippedCheck (_build_skipped_check n r) := by
  refine ⟨rfl, rfl, r, ?_⟩
  simp [_build_skipped_check, _build_check, List.lookup]

@[simp] theorem null_ratio_check_name (s : Series) :
    (null_ratio_check s).name = "null_ratio" := rfl

@[simp] theorem null_run_check_name (s : Series) :
    (null_run_check s).name = "null_run_length" := by
  unfold null_run_check
  dsimp only
  split_ifs <;> rfl

@[simp] theorem distinct_ratio_check_name (s : Series) :
    (distinct_ratio_check s).name = "distinct_ratio" := by
  unfold distinct_ratio_check
  rcases distinctRatioOpt s with _ | r <;> rfl

@[simp] theorem dominant_category_check_name (s : Series) :
    (dominant_category_check s).name = "dominant_category" := by
  unfold dominant_category_check
  rcases _dominant_value (nonNullVals s) with ⟨tv, tr⟩
  cases tv <;> cases tr <;> rfl

@[simp] theorem entropy_check_name (entF : List ℕ → ℚ) (log2F : ℕ → ℚ)
    (s : Series) : (entropy_check entF log2F s).name = "entropy" := by
  unfold entropy_check
  cases h : entropyOptS entF s
  · rfl
  · dsimp only
    split_ifs <;> rfl

@[simp] theorem low_variance_check_name (s : Series) :
    (low_variance_check s).name = "low_variance" := by
  unfold low_variance_check
  split_ifs <;> rfl

@[simp] theorem z_score_check_name (s : Series) :
    (z_score_check s).name = "z_score_outliers" := by
  unfold z_score_check
  split_ifs <;> rfl

@[simp] theorem iqr_outliers_check_name (s : Series) :
    (iqr_outliers_check s).name = "iqr_outliers" := by
  unfold iqr_outliers_check
  split_ifs <;> rfl

@[simp] theorem modified_z_score_check_name (s : Series) :
    (modified_z_score_check s).name = "modified_z_score" := by
  unfold modified_z_score_check
  split_ifs <;> rfl

@[simp] theorem skewness_check_name (s : Series) :
    (skewness_check s).name = "skewness" := by
  unfold skewness_check
  split_ifs <;> rfl

@[simp] theorem kurtosis_check_name (s : Series) :
    (kurtosis_check s).name = "kurtosis" := by
  unfold kurtosis_check
  rcases kurtOptS s with _ | k <;> rfl

theorem mem_nullSection {s : Series} {chk : ColumnCheckResult}
    (h : chk ∈ nullSection s) :
    (totalCount s = 0 ∧
      (chk = _build_skipped_check "null_ratio" "column has zero rows" ∨
        chk = _build_skipped_check "null_run_length" "column has zero rows")) ∨
    (totalCount s ≠ 0 ∧ (chk = null_ratio_check s ∨ chk = null_run_check s)) := by
  unfold nullSection at h
  split_ifs at h with ht
  · exact Or.inl ⟨ht, by simpa using h⟩
  · exact Or.inr ⟨ht, by simpa using h⟩

theorem mem_distinctSection {entF : List ℕ → ℚ} {log2F : ℕ → ℚ} {s : Series}
    {chk : ColumnCheckResult} (h : chk ∈ distinctSection entF log2F s) :
    (nonNullCount s ≠ 0 ∧
      (chk = distinct_ratio_check s ∨ chk = dominant_category_check s ∨
        chk = entropy_check entF log2F s)) ∨
    (nonNullCount s = 0 ∧
      (chk = _build_skipped_check "distinct_ratio" "no non-null values" ∨
        chk = _build_skipped_check "dominant_category" "no non-null values" ∨
        chk = _build_skipped_check "entropy" "no non-null values")) := by
  unfold distinctSection at h
  split_ifs at h with ht
  · exact Or.inl ⟨ht, by simpa using h⟩
  · exact Or.inr ⟨by simpa using ht, by simpa using h⟩

theorem mem_numericSection {s : Series} {chk : ColumnCheckResult}
    (h : chk ∈ numericSection s) :
    chk = low_variance_check s ∨ chk = z_score_check s ∨
    chk = iqr_outliers_check s ∨ chk = modified_z_score_check s ∨
    (3 ≤ (numVals s).length ∧ (chk = skewness_check s ∨ chk = kurtosis_check s)) ∨
    (¬3 ≤ (numVals s).length ∧
      (chk = _build_skipped_check "skewness" "at least three numeric values required" ∨
        chk = _build_skipped_check "kurtosis" "at least three numeric values required")) := by
  unfold numericSection skewKurtSection at h
  split_ifs at h with h3
  · rcases by simpa using h with h' | h' | h' | h' | h' | h'
    · exact Or.inl h'
    · exact Or.inr (Or.inl h')
    · exact Or.inr (Or.inr (Or.inl h'))
    · exact Or.inr (Or.inr (Or.inr (Or.inl h')))
    · exact Or.inr (Or.inr (Or.inr (Or.inr (Or.inl ⟨h3, Or.inl h'⟩))))
    · exact Or.inr (Or.inr (Or.inr (Or.inr (Or.inl ⟨h3, Or.inr h'⟩))))
  · rcases by simpa using h with h' | h' | h' | h' | h' | h'
    · exact Or.inl h'
    · exact Or.inr (Or.inl h')
    · exact Or.inr (Or.inr (Or.inl h'))
    · exact Or.inr (Or.inr (Or.inr (Or.inl h')))
    · exact Or.inr (Or.inr (Or.inr (Or.inr (Or.inr ⟨h3, Or.inl h'⟩))))
    · exact Or.inr (Or.inr (Or.inr (Or.inr (Or.inr ⟨h3, Or.inr h'⟩))))

theorem mem_checks_cases {entF : List ℕ → ℚ} {log2F : ℕ → ℚ} {s : Series}
    {chk : ColumnCheckResult} (h : chk ∈ analyze_column_checks entF log2F s) :
    chk ∈ nullSection s ∨ chk ∈ distinctSection entF log2F s ∨
    (_numeric_series s = [] ∧
      chk = _build_skipped_check "numeric_profile" "column does not contain numeric data") ∨
    (_numeric_series s ≠ [] ∧ chk ∈ numericSection s) := by
  unfold analyze_column_checks at h
  rcases List.mem_append.1 h with h | h
  · rcases List.mem_append.1 h with h | h
    · exact Or.inl h
    · exact Or.inr (Or.inl h)
  · split_ifs at h with hn
    · exact Or.inr (Or.inr (Or.inl ⟨hn, by simpa using h⟩))
    · exact Or.inr (Or.inr (Or.inr ⟨hn, h⟩))

theorem entropy_check_skips (entF : List ℕ → ℚ) (log2F : ℕ → ℚ) {s : Series}
    (h : distinctCountS s ≤ 1) :
    entropy_check entF log2F s =
      _build_skipped_check "entropy" "insufficient distinct values to assess entropy" := by
  unfold entropy_check
  cases he : entropyOptS entF s
  · rfl
  · dsimp only
    rw [if_pos h]

theorem z_score_check_skips {s : Series} (h : varS s = 0) :
    z_score_check s =
      _build_skipped_check "z_score_outliers"
        "standard deviation is zero; z-score detection unavailable" := by
  unfold z_score_check
  rw [if_pos h]

theorem iqr_outliers_check_skips {s : Series} (h : iqrS s = 0) :
    iqr_outliers_check s =
      _build_skipped_check "iqr_outliers"
        "interquartile range is zero; cannot compute fences" := by
  unfold iqr_outliers_check
  rw [if_pos h]

theorem modified_z_score_check_skips {s : Series} (h : madS s = 0) :
    modified_z_score_check s =
      _build_skipped_check "modified_z_score"
        "median absolute deviation is zero; cannot compute modified z-scores" := by
  unfold modified_z_score_check
  rw [if_pos h]

/-! ## C5: degeneracies are explicit skipped checks -/

/-- C5: `analyze_column` is a total function of its input (the embedding is a
Lean function, mirroring that the Python code raises nowhere), and every
computational degeneracy is surfaced in the returned checks list as an
explicit skipped check — `passed = true`, severity `"info"`, populated
`metrics.reason` — never as a missing check: zero rows (`null_ratio`,
`null_run_length`), no non-null values (`distinct_ratio`,
`dominant_category`), fewer than 2 distinct values (`entropy`), no
numeric-coercible values (`numeric_profile`), zero variance
(`z_score_outliers`), zero IQR (`iqr_outliers`), zero MAD
(`modified_z_score`), fewer than 3 numeric values (`skewness`,
`kurtosis`). -/
theorem C5_degeneracies_are_skipped_checks (entF : List ℕ → ℚ)
    (log2F : ℕ → ℚ) (table column : String) (s : Series) :
    let checks := (analyze_column entF log2F table column s).checks
    (totalCount s = 0 →
      (∃ chk ∈ checks, chk.name = "null_ratio" ∧ IsSkippedCheck chk) ∧
      (∃ chk ∈ checks, chk.name = "null_run_length" ∧ IsSkippedCheck chk)) ∧
    (nonNullCount s = 0 →
      (∃ chk ∈ checks, chk.name = "distinct_ratio" ∧ IsSkippedCheck chk) ∧
      (∃ chk ∈ checks, chk.name = "dominant_category" ∧ IsSkippedCheck chk)) ∧
    (distinctCountS s ≤ 1 →
      ∃ chk ∈ checks, chk.name = "entropy" ∧ IsSkippedCheck chk) ∧
    (_numeric_series s = [] →
      ∃ chk ∈ checks, chk.name = "numeric_profile" ∧ IsSkippedCheck chk) ∧
    (_numeric_series s ≠ [] → varS s = 0 →
      ∃ chk ∈ checks, chk.name = "z_score_outliers" ∧ IsSkippedCheck chk) ∧
    (_numeric_series s ≠ [] → iqrS s = 0 →
      ∃ chk ∈ checks, chk.name = "iqr_outliers" ∧ IsSkippedCheck chk) ∧
    (_numeric_series s ≠ [] → madS s = 0 →
      ∃ chk ∈ checks, chk.name = "modified_z_score" ∧ IsSkippedCheck chk) ∧
    (_numeric_series s ≠ [] → (numVals s).length < 3 →
      (∃ chk ∈ checks, chk.name = "skewness" ∧ IsSkippedCheck chk) ∧
      (∃ chk ∈ checks, chk.name = "kurtosis" ∧ IsSkippedCheck chk)) := by
  intro checks
  have inj1 : ∀ {c : ColumnCheckResult}, c ∈ nullSection s → c ∈ checks :=
    fun hc => List.mem_append_left _ (List.mem_append_left _ hc)
  have inj2 : ∀ {c : ColumnCheckResult},
      c ∈ distinctSection entF log2F s → c ∈ checks :=
    fun hc => List.mem_append_left _ (List.mem_append_right _ hc)
  have inj3skip : _numeric_series s = [] →
      _build_skipped_check "numeric_profile" "column does not contain numeric data"
        ∈ checks := by
    intro hn
    refine List.mem_append_right _ ?_
    rw [if_pos hn]
    exact List.mem_singleton_self _
  have inj3 : ∀ {c : ColumnCheckResult}, _numeric_series s ≠ [] →
      c ∈ numericSection s → c ∈ checks := by
    intro c hn hc
    refine List.mem_append_right _ ?_
    rw [if_neg hn]
    exact hc
  refine ⟨?_, ?_, ?_, ?_, ?_, ?_, ?_, ?_⟩
  · intro h0
    constructor
    · exact ⟨_build_skipped_check "null_ratio" "column has zero rows",
        inj1 (by simp [nullSection, h0]), rfl, isSkipped_skipped _ _⟩
    · exact ⟨_build_skipped_check "null_run_length" "column has zero rows",
        inj1 (by simp [nullSection, h0]), rfl, isSkipped_skipped _ _⟩
  · intro h0
    constructor
    · exact ⟨_build_skipped_check "distinct_ratio" "no non-null values",
        inj2 (by simp [distinctSection, h0]), rfl, isSkipped_skipped _ _⟩
    · exact ⟨_build_skipped_check "dominant_category" "no non-null values",
        inj2 (by simp [distinctSection, h0]), rfl, isSkipped_skipped _ _⟩
  · intro hd
    by_cases hnn : nonNullCount s = 0
    · exact ⟨_build_skipped_check "entropy" "no non-null values",
        inj2 (by simp [distinctSection, hnn]), rfl, isSkipped_skipped _ _⟩
    · refine ⟨entropy_check entF log2F s,
        inj2 (by simp [distinctSection, hnn]), ?_, ?_⟩
      · rw [entropy_check_skips entF log2F hd]
        rfl
      · rw [entropy_check_skips entF log2F hd]
        exact isSkipped_skipped _ _
  · intro hn
    exact ⟨_build_skipped_check "numeric_profile" "column does not contain numeric data",
      inj3skip hn, rfl, isSkipped_skipped _ _⟩
  · intro hn h0
    refine ⟨z_score_check s, inj3 hn (by simp [numericSection]), ?_, ?_⟩
    · rw [z_score_check_skips h0]
      rfl
    · rw [z_score_check_skips h0]
      exact isSkipped_skipped _ _
  · intro hn h0
    refine ⟨iqr_outliers_check s, inj3 hn (by simp [numericSection]), ?_, ?_⟩
    · rw [iqr_outliers_check_skips h0]
      rfl
    · rw [iqr_outliers_check_skips h0]
      exact isSkipped_skipped _ _
  · intro hn h0
    refine ⟨modified_z_score_check s, inj3 hn (by simp [numericSection]), ?_, ?_⟩
    · rw [modified_z_score_check_skips h0]
      rfl
    · rw [modified_z_score_check_skips h0]
      exact isSkipped_skipped _ _
  · intro hn h3
    have hsk : skewKurtSection s =
        [_build_skipped_check "skewness" "at least three numeric values required",
         _build_skipped_check "kurtosis" "at least three numeric values required"] := by
      unfold skewKurtSection
      rw [if_neg (by omega)]
    constructor
    · exact ⟨_build_skipped_check "skewness" "at least three numeric values required",
        inj3 hn (by simp [numericSection, hsk]), rfl, isSkipped_skipped _ _⟩
    · exact ⟨_build_skipped_check "kurtosis" "at least three numeric values required",
        inj3 hn (by simp [numericSection, hsk]), rfl, isSkipped_skipped _ _⟩

/-! ## C6: threshold comparisons are boundary-inclusive -/

@[simp] theorem _build_check_passed (n : String) (p : Bool) (sev msg : String)
    (mt : Bag) (sp : List Sample) (lc : Option Locations) :
    (_build_check n p sev msg mt sp lc).passed = p := rfl

@[simp] theorem _build_skipped_check_passed (n r : String) :
    (_build_skipped_check n r).passed = true := rfl

/-- Every element of the checks list is one of the finitely many check
constructions. -/
theorem checks_exhaustive {entF : List ℕ → ℚ} {log2F : ℕ → ℚ} {s : Series}
    {chk : ColumnCheckResult} (hm : chk ∈ analyze_column_checks entF log2F s) :
    chk = _build_skipped_check "null_ratio" "column has zero rows" ∨
    chk = _build_skipped_check "null_run_length" "column has zero rows" ∨
    chk = null_ratio_check s ∨
    chk = null_run_check s ∨
    chk = _build_skipped_check "distinct_ratio" "no non-null values" ∨
    chk = _build_skipped_check "dominant_category" "no non-null values" ∨
    chk = _build_skipped_check "entropy" "no non-null values" ∨
    chk = distinct_ratio_check s ∨
    chk = dominant_category_check s ∨
    chk = entropy_check entF log2F s ∨
    chk = _build_skipped_check "numeric_profile" "column does not contain numeric data" ∨
    chk = low_variance_check s ∨
    chk = z_score_check s ∨
    chk = iqr_outliers_check s ∨
    chk = modified_z_score_check s ∨
    chk = skewness_check s ∨
    chk = kurtosis_check s ∨
    chk = _build_skipped_check "skewness" "at least three numeric values required" ∨
    chk = _build_skipped_check "kurtosis" "at least three numeric values required" := by
  rcases mem_checks_cases hm with hc | hc | ⟨_, rfl⟩ | ⟨_, hc⟩
  · rcases mem_nullSection hc with ⟨_, h | h⟩ | ⟨_, h | h⟩ <;> subst h <;> simp
  · rcases mem_distinctSection hc with ⟨_, h | h | h⟩ | ⟨_, h | h | h⟩ <;>
      subst h <;> simp
  · simp
  · rcases mem_numericSection hc with h | h | h | h | ⟨_, h | h⟩ | ⟨_, h | h⟩ <;>
      subst h <;> simp

/-- The two components of `_dominant_value` are `some` together. -/
theorem dominant_value_shape (l : List Val) :
    (∃ v r, _dominant_value l = (some v, some r)) ∨
      _dominant_value l = (none, none) := by
  unfold _dominant_value
  split_ifs with h
  · exact Or.inr rfl
  · cases hv : valueCountsPairs l
    · exact Or.inr rfl
    · exact Or.inl ⟨_, _, rfl⟩

/-- C6: for every ratio-threshold check, a computed ratio exactly equal to
the threshold yields `passed = true` — every comparison is
boundary-inclusive on the passing side (`null_ratio ≤ 0.10`,
`distinct_ratio ≥ 0.02`, `dominant_category ≤ 0.95`, `entropy_ratio ≥ 0.3`,
and the three outlier ratios `≤ 0.05`). -/
theorem C6_boundary_inclusive (entF : List ℕ → ℚ) (log2F : ℕ → ℚ)
    (table column : String) (s : Series) :
    let checks := (analyze_column entF log2F table column s).checks
    (nullRatioQ s = NULL_RATIO_WARNING_THRESHOLD →
      ∀ chk ∈ checks, chk.name = "null_ratio" → chk.passed = true) ∧
    (distinctRatioOpt s = some DISTINCT_RATIO_MIN_THRESHOLD →
      ∀ chk ∈ checks, chk.name = "distinct_ratio" → chk.passed = true) ∧
    (topRatioOpt s = some DOMINANT_CATEGORY_THRESHOLD →
      ∀ chk ∈ checks, chk.name = "dominant_category" → chk.passed = true) ∧
    (∀ e, entropyOptS entF s = some e →
      e / log2F (distinctCountS s) = 3/10 →
      ∀ chk ∈ checks, chk.name = "entropy" → chk.passed = true) ∧
    (zOutlierRatioQ s = OUTLIER_RATIO_WARNING_THRESHOLD →
      ∀ chk ∈ checks, chk.name = "z_score_outliers" → chk.passed = true) ∧
    (iqrOutlierRatioQ s = OUTLIER_RATIO_WARNING_THRESHOLD →
      ∀ chk ∈ checks, chk.name = "iqr_outliers" → chk.passed = true) ∧
    (modZOutlierRatioQ s = OUTLIER_RATIO_WARNING_THRESHOLD →
      ∀ chk ∈ checks, chk.name = "modified_z_score" → chk.passed = true) := by
  intro checks
  refine ⟨?_, ?_, ?_, ?_, ?_, ?_, ?_⟩
  · intro h chk hm hname
    have hm' : chk ∈ analyze_column_checks entF log2F s := hm
    rcases checks_exhaustive hm' with
      rfl|rfl|rfl|rfl|rfl|rfl|rfl|rfl|rfl|rfl|rfl|rfl|rfl|rfl|rfl|rfl|rfl|rfl|rfl
    all_goals try (simp at hname)
    · rfl
    · simp [null_ratio_check, _build_check, h]
  · intro h chk hm hname
    have hm' : chk ∈ analyze_column_checks entF log2F s := hm
    rcases checks_exhaustive hm' with
      rfl|rfl|rfl|rfl|rfl|rfl|rfl|rfl|rfl|rfl|rfl|rfl|rfl|rfl|rfl|rfl|rfl|rfl|rfl
    all_goals try (simp at hname)
    · rfl
    · simp [distinct_ratio_check, _build_check, h]
  · intro h chk hm hname
    have hm' : chk ∈ analyze_column_checks entF log2F s := hm
    rcases checks_exhaustive hm' with
      rfl|rfl|rfl|rfl|rfl|rfl|rfl|rfl|rfl|rfl|rfl|rfl|rfl|rfl|rfl|rfl|rfl|rfl|rfl
    all_goals try (simp at hname)
    · rfl
    · rcases dominant_value_shape (nonNullVals s) with ⟨v, r, hd⟩ | hd
      · have hr : r = DOMINANT_CATEGORY_THRESHOLD := by
          unfold topRatioOpt at h
          rw [hd] at h
          exact Option.some_injective _ h
        subst hr
        simp [dominant_category_check, hd, _build_check]
      · unfold topRatioOpt at h
        rw [hd] at h
        exact absurd h (by simp)
  · intro e he h chk hm hname
    have hm' : chk ∈ analyze_column_checks entF log2F s := hm
    rcases checks_exhaustive hm' with
      rfl|rfl|rfl|rfl|rfl|rfl|rfl|rfl|rfl|rfl|rfl|rfl|rfl|rfl|rfl|rfl|rfl|rfl|rfl
    all_goals try (simp at hname)
    · rfl
    · unfold entropy_check
      rw [he]
      dsimp only
      split_ifs <;> simp [_build_check, h]
  · intro h chk hm hname
    have hm' : chk ∈ analyze_column_checks entF log2F s := hm
    rcases checks_exhaustive hm' with
      rfl|rfl|rfl|rfl|rfl|rfl|rfl|rfl|rfl|rfl|rfl|rfl|rfl|rfl|rfl|rfl|rfl|rfl|rfl
    all_goals try (simp at hname)
    unfold z_score_check
    split_ifs <;> simp [_build_check, h]
  · intro h chk hm hname
    have hm' : chk ∈ analyze_column_checks entF log2F s := hm
    rcases checks_exhaustive hm' with
      rfl|rfl|rfl|rfl|rfl|rfl|rfl|rfl|rfl|rfl|rfl|rfl|rfl|rfl|rfl|rfl|rfl|rfl|rfl
    all_goals try (simp at hname)
    unfold iqr_outliers_check
    split_ifs <;> simp [_build_check, h]
  · intro h chk hm hname
    have hm' : chk ∈ analyze_column_checks entF log2F s := hm
    rcases checks_exhaustive hm' with
      rfl|rfl|rfl|rfl|rfl|rfl|rfl|rfl|rfl|rfl|rfl|rfl|rfl|rfl|rfl|rfl|rfl|rfl|rfl
    all_goals try (simp at hname)
    unfold modified_z_score_check
    split_ifs <;> simp [_build_check, h]

/-! ## C8: the constant numeric column `[5,5,5,5,5]` -/

set_option maxHeartbeats 2000000 in
/-- C8 counterexample: on `[5,5,5,5,5]` the `skewness` check is NOT reported
as skipped — it carries no `reason` metric.  pandas' `nanskew` zeroes out a
zero second moment and returns `0.0` (not NaN) for a constant series of
length ≥ 3, so the `pd.notna` guard holds and the ordinary evaluated check
is emitted, contradicting the claim that `skewness` (and `kurtosis`) are
reported as skipped on this input. -/
theorem C8_counterexample_constant_series :
    ((analyze_column ent1 log1 "tbl" "constant" s55).checks.find?
      fun c => c.name = "skewness").map (fun c => c.metrics.lookup "reason") =
      some none := by
  norm_num [analyze_column, analyze_column_checks, nullSection, distinctSection,
    numericSection, skewKurtSection, totalCount, nonNullCount, nullCount,
    _numeric_series, s55, numVals, List.filterMap_cons, List.countP_cons,
    List.find?, skewness_check, skewnessNa, skewSqS, skewSignedSqS,
    centralMoment, meanQ, _build_check, List.lookup]
  simp
  rintro a b (⟨rfl, -⟩ | ⟨rfl, -⟩ | ⟨rfl, -⟩) <;> decide

set_option maxHeartbeats 4000000 in
/-- C8 (amended): on `[5,5,5,5,5]`, `low_variance` fails (severity
`"warning"`), `dominant_category` fails with severity `"critical"`, and the
`skewness` and `kurtosis` checks are emitted as ordinary evaluated checks
that pass — `passed = true`, severity `"info"`, no `reason` metric — because
pandas evaluates both statistics of this constant series to `0.0` rather
than NaN. -/
theorem C8_constant_series_checks :
    ((analyze_column ent1 log1 "tbl" "constant" s55).checks.find?
      fun c => c.name = "low_variance").map (fun c => (c.passed, c.severity)) =
      some (false, "warning") ∧
    ((analyze_column ent1 log1 "tbl" "constant" s55).checks.find?
      fun c => c.name = "dominant_category").map
        (fun c => (c.passed, c.severity)) = some (false, "critical") ∧
    ((analyze_column ent1 log1 "tbl" "constant" s55).checks.find?
      fun c => c.name = "skewness").map
        (fun c => (c.passed, c.severity, c.metrics.lookup "reason")) =
      some (true, "info", none) ∧
    ((analyze_column ent1 log1 "tbl" "constant" s55).checks.find?
      fun c => c.name = "kurtosis").map
        (fun c => (c.passed, c.severity, c.metrics.lookup "reason")) =
      some (true, "info", none) := by
  refine ⟨?_, ?_, ?_, ?_⟩
  · norm_num [analyze_column, analyze_column_checks, nullSection,
      distinctSection, numericSection, skewKurtSection, totalCount,
      nonNullCount, nullCount, _numeric_series, s55, numVals,
      List.filterMap_cons, List.countP_cons, List.find?, low_variance_check,
      varS, varianceQ, meanQ, LOW_VARIANCE_THRESHOLD, _build_check]
    simp
  · norm_num [analyze_column, analyze_column_checks, nullSection,
      distinctSection, numericSection, skewKurtSection, totalCount,
      nonNullCount, nullCount, _numeric_series, s55, numVals,
      List.filterMap_cons, List.countP_cons, List.find?,
      dominant_category_check, _dominant_value, valueCountsPairs,
      distinctFirst, distinctFirstAux, nonNullVals, nonNullSeries,
      List.insertionSort, List.orderedInsert, DOMINANT_CATEGORY_THRESHOLD,
      _build_check]
    simp
    norm_num
  · norm_num [analyze_column, analyze_column_checks, nullSection,
      distinctSection, numericSection, skewKurtSection, totalCount,
      nonNullCount, nullCount, _numeric_series, s55, numVals,
      List.filterMap_cons, List.countP_cons, List.find?, skewness_check,
      skewnessNa, skewSqS, skewSignedSqS, centralMoment, meanQ,
      SKEWNESS_WARNING_THRESHOLD, _build_check, List.lookup]
    simp
    rintro a b (⟨rfl, -⟩ | ⟨rfl, -⟩ | ⟨rfl, -⟩) <;> decide
  · norm_num [analyze_column, analyze_column_checks, nullSection,
      distinctSection, numericSection, skewKurtSection, totalCount,
      nonNullCount, nullCount, _numeric_series, s55, numVals,
      List.filterMap_cons, List.countP_cons, List.find?, kurtosis_check,
      kurtOptS, centralMoment, meanQ, KURTOSIS_WARNING_THRESHOLD,
      _build_check, List.lookup]
    simp
    rintro a b (⟨rfl, -⟩ | ⟨rfl, -⟩ | ⟨rfl, -⟩) <;> decide

/-- Splitting a guarded `filterMap` into `filter` followed by `map`. -/
theorem filterMap_guard {α β : Type} (p : α → Prop) [DecidablePred p] (f : α → β)
    (l : List α) :
    (l.filterMap fun a => if p a then none else some (f a)) =
      (l.filter fun a => decide (¬ p a)).map f := by
  induction l with
  | nil => rfl
  | cons a t ih => by_cases h : p a <;> simp [h, ih]

/-- `_extract_row_context` keeps one block per row range whose start is inside
the table: there is NO cap on the number of blocks. -/
theorem extract_row_context_blocks (df : DFrame) (col : String) (loc : Locations) :
    _extract_row_context df col (some loc) MAX_ALERT_CONTEXT_ROWS =
      (loc.row_ranges.filter fun rr => decide (rr.start < df.rows.length)).map
        (contextBlockFor df col MAX_ALERT_CONTEXT_ROWS) := by
  unfold _extract_row_context
  dsimp only
  by_cases h : loc.row_ranges = []
  · simp [h]
  · rw [if_neg h]
    rw [filterMap_guard (fun rr : RowRange => df.rows.length ≤ rr.start)]
    have hpred : (fun rr : RowRange => decide (¬ df.rows.length ≤ rr.start)) =
        fun rr : RowRange => decide (rr.start < df.rows.length) := by
      funext rr
      exact decide_eq_decide.mpr (by omega)
    rw [hpred]
    rfl

/-- One block of `_extract_row_context`, for an in-bounds range: it echoes the
range, holds between 1 and `max_rows` samples whose row numbers run
consecutively from the range start without leaving the table, and every
sample snapshot comes from an actual table row. -/
theorem contextBlockFor_spec (df : DFrame) (col : String) (m : ℕ) (rr : RowRange)
    (hm : 1 ≤ m) (h : rr.start < df.rows.length) :
    (contextBlockFor df col m rr).range = rr ∧
    (contextBlockFor df col m rr).row_samples.length ≤ m ∧
    (contextBlockFor df col m rr).row_samples ≠ [] ∧
    (∀ i : ℕ, ∀ hi : i < (contextBlockFor df col m rr).row_samples.length,
      ((contextBlockFor df col m rr).row_samples.get ⟨i, hi⟩).row_number = rr.start + i ∧
      ((contextBlockFor df col m rr).row_samples.get ⟨i, hi⟩).row_number < df.rows.length) ∧
    (∀ smp ∈ (contextBlockFor df col m rr).row_samples,
      ∃ r ∈ df.rows, smp.row_snapshot = rowSnapshot df.cols r.2) := by
  have hb : contextBlockFor df col m rr =
      ⟨rr, (((df.rows.drop rr.start).take
          (min (min (if rr.stop < rr.start then rr.start else rr.stop)
              (df.rows.length - 1) + 1) (rr.start + m) - rr.start)).enum.map
        fun oe =>
          { row_number := rr.start + oe.1
            row_index := oe.2.1
            value :=
              match (df.cols.zip oe.2.2).find? fun e => e.1 = col with
              | some e => _json_safe e.2
              | none => .mnull
            row_snapshot := rowSnapshot df.cols oe.2.2 : RowSample })⟩ := rfl
  set n := df.rows.length with hn
  set s := rr.start with hs
  set limit := min (min (if rr.stop < rr.start then rr.start else rr.stop)
      (n - 1) + 1) (s + m) with hlimit
  have hlim1 : s + 1 ≤ limit := by
    have h1 : s ≤ if rr.stop < rr.start then rr.start else rr.stop := by
      split <;> omega
    omega
  have hlim2 : limit ≤ n := by omega
  have hlim3 : limit ≤ s + m := by omega
  have hlen : (contextBlockFor df col m rr).row_samples.length = limit - s := by
    rw [hb]
    simp [List.length_take, List.length_drop]
    omega
  refine ⟨by rw [hb], by omega, ?_, ?_, ?_⟩
  · intro hnil
    have : (contextBlockFor df col m rr).row_samples.length = 0 := by
      rw [hnil]; rfl
    omega
  · intro i hi
    have hi' : i < limit - s := by omega
    have hsub : i < ((df.rows.drop s).take (limit - s)).length := by
      simp [List.length_take, List.length_drop]; omega
    have hrs := congrArg ContextBlock.row_samples hb
    constructor
    · rw [List.get_of_eq hrs]
      simp only [List.get_eq_getElem, List.getElem_map, List.getElem_enum]
    · rw [List.get_of_eq hrs]
      simp only [List.get_eq_getElem, List.getElem_map, List.getElem_enum]
      omega
  · intro smp hsmp
    rw [hb] at hsmp
    simp only [List.mem_map] at hsmp
    obtain ⟨oe, hoe, hsmpe⟩ := hsmp
    have h2 : oe.2 ∈ (df.rows.drop s).take (limit - s) := List.snd_mem_of_mem_enum hoe
    have h3 : oe.2 ∈ df.rows := List.drop_subset s df.rows (List.take_subset _ _ h2)
    exact ⟨oe.2, h3, by rw [← hsmpe]⟩

/-- The keys of a `rowSnapshot` are exactly the column names when the row is
wide enough. -/
theorem rowSnapshot_keys (cols : List String) (vals : List Val)
    (h : cols.length ≤ vals.length) :
    (rowSnapshot cols vals).map Prod.fst = cols := by
  unfold rowSnapshot
  rw [List.map_map]
  have : (Prod.fst ∘ fun e : String × Val => (e.1, _json_safe e.2)) =
      (Prod.fst : String × Val → String) := by
    funext e; rfl
  rw [this, List.map_fst_zip _ _ h]

/-- C2 (amended): the row context built for a check's locations holds one
block per row range whose start lies inside the table (NOT at most 5 blocks:
the count is unbounded); each block echoes one of the location's ranges, is
clipped to the table's row bounds, holds between 1 and 5 row samples whose
row numbers run consecutively from the range start and stay inside the
table, and every sample's snapshot lists a value for EVERY column of the
table, not only the flagged column (assuming each stored row has one value
per column). -/
theorem C2_row_context_properties (df : DFrame) (col : String) (loc : Locations)
    (hwf : ∀ r ∈ df.rows, r.2.length = df.cols.length) :
    (_extract_row_context df col (some loc) MAX_ALERT_CONTEXT_ROWS).length =
      (loc.row_ranges.filter fun rr => decide (rr.start < df.rows.length)).length ∧
    ∀ b ∈ _extract_row_context df col (some loc) MAX_ALERT_CONTEXT_ROWS,
      b.range ∈ loc.row_ranges ∧
      b.row_samples.length ≤ MAX_ALERT_CONTEXT_ROWS ∧
      b.row_samples ≠ [] ∧
      (∀ i : ℕ, ∀ hi : i < b.row_samples.length,
        (b.row_samples.get ⟨i, hi⟩).row_number = b.range.start + i ∧
        (b.row_samples.get ⟨i, hi⟩).row_number < df.rows.length) ∧
      ∀ smp ∈ b.row_samples, smp.row_snapshot.map Prod.fst = df.cols := by
  rw [extract_row_context_blocks]
  refine ⟨by rw [List.length_map], ?_⟩
  intro b hb
  rw [List.mem_map] at hb
  obtain ⟨rr, hrr, hbe⟩ := hb
  rw [List.mem_filter] at hrr
  obtain ⟨hmem, hlt'⟩ := hrr
  have hlt : rr.start < df.rows.length := of_decide_eq_true hlt'
  have hm : 1 ≤ MAX_ALERT_CONTEXT_ROWS := by norm_num [MAX_ALERT_CONTEXT_ROWS]
  obtain ⟨hrange, hlen, hne, hnum, hsnap⟩ :=
    contextBlockFor_spec df col MAX_ALERT_CONTEXT_ROWS rr hm hlt
  subst hbe
  refine ⟨hrange ▸ hmem, hlen, hne, ?_, ?_⟩
  · intro i hi
    rw [hrange]
    exact hnum i hi
  · intro smp hsmp
    obtain ⟨r, hr, heq⟩ := hsnap smp hsmp
    rw [heq]
    exact rowSnapshot_keys df.cols r.2 (le_of_eq (hwf r hr).symm)

/-- Witness: the amended C2 theorem instantiated at a one-column, one-row
table with a single flagged range. -/
theorem C2_row_context_properties_witness :
    (_extract_row_context ⟨["c"], [(0, [Val.vnull])]⟩ "c"
        (some ⟨[⟨0, 0, 1⟩], 1, 1⟩) MAX_ALERT_CONTEXT_ROWS).length =
      (([⟨0, 0, 1⟩] : List RowRange).filter fun rr =>
        decide (rr.start < (DFrame.mk ["c"] [(0, [Val.vnull])]).rows.length)).length :=
  (C2_row_context_properties ⟨["c"], [(0, [Val.vnull])]⟩ "c" ⟨[⟨0, 0, 1⟩], 1, 1⟩
    (by intro r hr; simp only [List.mem_singleton] at hr; subst hr; rfl)).1


set_option maxHeartbeats 4000000 in
/-- C2 counterexample: a 12-row single-column table whose values alternate
null and string produces a failing `null_ratio` check whose locations carry
SIX row ranges, and `build_alert_candidates` puts all SIX row-context blocks
into the alert's details — refuting the claim that at most 5 row-context
blocks appear. -/
theorem C2_counterexample_six_blocks :
    ((build_alert_candidates (fun _ => none) 0 exDataset12 exStats12).head?).map
      (fun a => (a.check_name, (detailsRowContext a.details).length)) =
      some ("null_ratio", 6) := by
  have hchecks : analyze_column_checks ent1 log1 (dfColumn df12 "v") =
      [null_ratio_check (dfColumn df12 "v"), null_run_check (dfColumn df12 "v"),
       distinct_ratio_check (dfColumn df12 "v"),
       dominant_category_check (dfColumn df12 "v"),
       entropy_check ent1 log1 (dfColumn df12 "v"),
       _build_skipped_check "numeric_profile" "column does not contain numeric data"] := by
    unfold analyze_column_checks nullSection distinctSection
    norm_num [totalCount, nonNullCount, nullCount, dfColumn, df12,
      _numeric_series, List.filterMap_cons, List.countP_cons]
  have hratio : ¬ (nullRatioQ (dfColumn df12 "v") ≤ NULL_RATIO_WARNING_THRESHOLD) := by
    norm_num [nullRatioQ, nullCount, totalCount, dfColumn, df12,
      List.countP_cons, NULL_RATIO_WARNING_THRESHOLD]
  have p1 : (null_ratio_check (dfColumn df12 "v")).passed = false := by
    simp [null_ratio_check, _build_check, hratio]
  have p2 : (null_run_check (dfColumn df12 "v")).passed = true := by
    norm_num [null_run_check, _build_check, longestNullRun, nullFlags,
      _longest_true_run, _longest_true_run_loop, dfColumn, df12, runThreshold,
      totalCount]
  have p3 : (distinct_ratio_check (dfColumn df12 "v")).passed = true := by
    norm_num [distinct_ratio_check, _build_check, distinctRatioOpt,
      distinctCountS, distinctFirst, distinctFirstAux, nonNullVals,
      nonNullSeries, nonNullCount, nullCount, totalCount, dfColumn, df12,
      List.countP_cons, List.filter, DISTINCT_RATIO_MIN_THRESHOLD]
    try simp
    try norm_num
  have p4 : (dominant_category_check (dfColumn df12 "v")).passed = true := by
    norm_num [dominant_category_check, _build_check, _dominant_value,
      valueCountsPairs, distinctFirst, distinctFirstAux, nonNullVals,
      nonNullSeries, dfColumn, df12, List.countP_cons, List.filter,
      List.insertionSort, List.orderedInsert, DOMINANT_CATEGORY_THRESHOLD]
    try simp
    try norm_num
  have p5 : (entropy_check ent1 log1 (dfColumn df12 "v")).passed = true := by
    norm_num [entropy_check, _build_check, entropyOptS, _entropy_from_counts,
      countsList, valueCountsPairs, distinctFirst, distinctFirstAux,
      nonNullVals, nonNullSeries, dfColumn, df12, List.countP_cons,
      List.filter, List.insertionSort, List.orderedInsert, ent1, log1,
      distinctCountS]
    try simp
    try norm_num
  have hpb : (decide (nullRatioQ (dfColumn df12 "v") ≤ NULL_RATIO_WARNING_THRESHOLD)) = false := by
    simp [hratio]
  have hsum : _build_anomaly_summary (dfColumn df12 "v")
      (nullIndices (dfColumn df12 "v")) =
      ⟨[⟨0,0,MVal.mnull⟩, ⟨2,2,MVal.mnull⟩, ⟨4,4,MVal.mnull⟩, ⟨6,6,MVal.mnull⟩,
        ⟨8,8,MVal.mnull⟩, ⟨10,10,MVal.mnull⟩],
       [⟨0,0,1⟩, ⟨2,2,1⟩, ⟨4,4,1⟩, ⟨6,6,1⟩, ⟨8,8,1⟩, ⟨10,10,1⟩], 6, 1⟩ := by
    norm_num [_build_anomaly_summary, _build_position_lookup, _resolve_loop,
      anomalySample, _positions_to_ranges, _ranges_loop, sortedDedup,
      nullIndices, dfColumn, df12, _json_safe, List.filter, List.enum,
      List.enumFrom, List.insertionSort, List.orderedInsert,
      List.dedup_cons_of_mem, List.dedup_cons_of_not_mem, MAX_ANOMALY_SAMPLES]
    simp
  have hloc : (null_ratio_check (dfColumn df12 "v")).locations =
      some ⟨[⟨0,0,1⟩, ⟨2,2,1⟩, ⟨4,4,1⟩, ⟨6,6,1⟩, ⟨8,8,1⟩, ⟨10,10,1⟩], 6, 1⟩ := by
    simp only [null_ratio_check, _build_check, hpb, Bool.false_eq_true,
      if_false, hsum, Option.map_some]
    simp [locationsOf]
  have hfilter : (analyze_column_checks ent1 log1 (dfColumn df12 "v")).filter
      (fun c => !c.passed) = [null_ratio_check (dfColumn df12 "v")] := by
    rw [hchecks]
    simp [List.filter, p1, p2, p3, p4, p5, _build_skipped_check, _build_check]
  have hext : (_extract_row_context df12 "v"
      (some ⟨[⟨0,0,1⟩, ⟨2,2,1⟩, ⟨4,4,1⟩, ⟨6,6,1⟩, ⟨8,8,1⟩, ⟨10,10,1⟩], 6, 1⟩)
      MAX_ALERT_CONTEXT_ROWS).length = 6 := by
    norm_num [_extract_row_context, df12, List.filterMap_cons,
      MAX_ALERT_CONTEXT_ROWS]
    try simp
    try norm_num
  simp only [build_alert_candidates, exStats12, exDataset12, analyze_column,
    List.flatMap_cons, List.flatMap_nil, List.filterMap_nil, List.append_nil]
  rw [hfilter]
  simp only [List.map_cons, List.map_nil, List.head?_cons, Option.map_some]
  rw [hloc]
  have hmem : "v" ∈ df12.cols := by simp [df12]
  simp [detailsRowContext, hext, null_ratio_check_name, List.find?, hmem]


/-! ## C3: the shape and order of the alert candidates -/

/-- Mapping congruent functions under `flatMap`. -/
theorem flatMap_congr {α β : Type} {l : List α} {f g : α → List β}
    (h : ∀ a ∈ l, f a = g a) : l.flatMap f = l.flatMap g := by
  induction l with
  | nil => rfl
  | cons a t ih =>
    simp only [List.flatMap_cons, h a (List.mem_cons_self a t)]
    rw [ih fun a ha => h a (List.mem_cons_of_mem _ ha)]

/-- C3: `build_alert_candidates` returns exactly the candidates the claim
describes — one per failing column check in column/check iteration order
(name `table.column::check_name`, severity and message copied from the
check, details bundling the check payload plus the owning column's metrics
and issue summary), followed by exactly one `table::summary_issues`
candidate (column `none`, `"critical"` severity iff the table has a positive
critical count) per table with failing checks, and nothing else.  The
severity is copied verbatim provided no check carries the empty-string
severity (the code falls back to `"warning"` on a falsy severity). -/
theorem C3_alert_order_and_content (parseIso : String → Option ℤ) (now : ℤ)
    (dataset : List (String × DFrame)) (statistics : DatasetStatistics)
    (m : ℕ)
    (hsev : ∀ cs ∈ statistics.columns, ∀ c ∈ cs.checks, c.severity ≠ "") :
    build_alert_candidates parseIso now dataset statistics m =
      specAlertCandidates parseIso now dataset statistics m := by
  unfold build_alert_candidates specAlertCandidates
  dsimp only
  congr 1
  · refine flatMap_congr fun cs hcs => ?_
    refine List.map_congr_left fun check hcheck => ?_
    have hc : check ∈ cs.checks := (List.mem_filter.mp hcheck).1
    have hne : ¬ check.severity = "" := hsev cs hcs check hc
    rw [if_neg hne]
    rfl
  · rw [filterMap_guard (fun ts : TableStatistics => ts.issue_summary.failed_checks = 0)]
    have hpred : (fun ts : TableStatistics =>
        decide (¬ ts.issue_summary.failed_checks = 0)) =
        fun ts : TableStatistics => decide (0 < ts.issue_summary.failed_checks) := by
      funext ts
      exact decide_eq_decide.mpr (by omega)
    rw [hpred]

/-- Witness: the C3 refinement at the concrete one-column statistics
`exStats`, whose only check carries severity `"warning"`. -/
theorem C3_alert_order_and_content_witness :
    build_alert_candidates (fun _ => none) 0 [] exStats MAX_ALERT_CONTEXT_ROWS =
      specAlertCandidates (fun _ => none) 0 [] exStats MAX_ALERT_CONTEXT_ROWS :=
  C3_alert_order_and_content (fun _ => none) 0 [] exStats MAX_ALERT_CONTEXT_ROWS
    (by
      intro cs hcs c hc
      simp only [exStats, exColumnStats, exFailingCheck, List.mem_singleton] at hcs
      subst hcs
      simp only [List.mem_singleton] at hc
      subst hc
      decide)

/-! ## C9 and C10: table alerts and the shared timestamp -/

/-- The table-level alert of `exStats` is produced by
`build_alert_candidates`. -/
theorem exTableAlert_mem :
    exTableAlert ∈ build_alert_candidates (fun _ => none) 0 [] exStats
      MAX_ALERT_CONTEXT_ROWS := by
  unfold build_alert_candidates
  dsimp only
  rw [List.mem_append]
  right
  rw [List.mem_filterMap]
  refine ⟨exTableStats, by simp [exStats], ?_⟩
  rw [if_neg (by norm_num [exTableStats])]
  rfl

/-- C9: every candidate with `column = none` — i.e. every table-level
summary alert — carries the fixed `check_name` `"table_summary"` (distinct
from its `name` `table::summary_issues`), so the reconciliation key of all
of one table's summary alerts is `(table, none, "table_summary")`. -/
theorem C9_table_summary_check_name (parseIso : String → Option ℤ) (now : ℤ)
    (dataset : List (String × DFrame)) (statistics : DatasetStatistics) (m : ℕ) :
    ∀ a ∈ build_alert_candidates parseIso now dataset statistics m,
      a.column = none →
      a.check_name = "table_summary" ∧ a.name = a.table ++ "::summary_issues" := by
  intro a ha hcol
  unfold build_alert_candidates at ha
  dsimp only at ha
  rw [List.mem_append] at ha
  rcases ha with ha | ha
  · rw [List.mem_flatMap] at ha
    obtain ⟨cs, hcs, hmem2⟩ := ha
    rw [List.mem_map] at hmem2
    obtain ⟨check, _, heq⟩ := hmem2
    rw [← heq] at hcol
    simp at hcol
  · rw [List.mem_filterMap] at ha
    obtain ⟨ts, hts, hf⟩ := ha
    by_cases hz : ts.issue_summary.failed_checks = 0
    · rw [if_pos hz] at hf
      exact absurd hf (by simp)
    · rw [if_neg hz] at hf
      rw [Option.some_inj] at hf
      subst hf
      exact ⟨rfl, rfl⟩

/-- Witness: the concrete table alert of `exStats` has `column = none` and
`check_name = "table_summary"`. -/
theorem C9_table_summary_check_name_witness :
    ∃ a ∈ build_alert_candidates (fun _ => none) 0 [] exStats
        MAX_ALERT_CONTEXT_ROWS,
      a.column = none ∧ a.check_name = "table_summary" ∧
        a.name = a.table ++ "::summary_issues" :=
  ⟨exTableAlert, exTableAlert_mem, rfl,
    C9_table_summary_check_name (fun _ => none) 0 [] exStats
      MAX_ALERT_CONTEXT_ROWS exTableAlert exTableAlert_mem rfl⟩

/-- C10: every candidate of one `build_alert_candidates` call carries the
same `triggered_at`: the parse of `statistics.generated_at` when it
succeeds, and otherwise the current-time fallback taken once at the start
of the call. -/
theorem C10_uniform_triggered_at (parseIso : String → Option ℤ) (now : ℤ)
    (dataset : List (String × DFrame)) (statistics : DatasetStatistics) (m : ℕ) :
    ∀ a ∈ build_alert_candidates parseIso now dataset statistics m,
      a.triggered_at = (parseIso statistics.generated_at).getD now := by
  intro a ha
  unfold build_alert_candidates at ha
  dsimp only at ha
  rw [List.mem_append] at ha
  rcases ha with ha | ha
  · rw [List.mem_flatMap] at ha
    obtain ⟨cs, hcs, hmem2⟩ := ha
    rw [List.mem_map] at hmem2
    obtain ⟨check, _, heq⟩ := hmem2
    rw [← heq]
  · rw [List.mem_filterMap] at ha
    obtain ⟨ts, hts, hf⟩ := ha
    by_cases hz : ts.issue_summary.failed_checks = 0
    · rw [if_pos hz] at hf
      exact absurd hf (by simp)
    · rw [if_neg hz] at hf
      rw [Option.some_inj] at hf
      subst hf
      rfl

/-- Witness: the concrete table alert of `exStats` carries the fallback
timestamp (the ISO parse of `"g"` fails). -/
theorem C10_uniform_triggered_at_witness :
    exTableAlert.triggered_at =
      (((fun _ => none) : String → Option ℤ) exStats.generated_at).getD 0 :=
  C10_uniform_triggered_at (fun _ => none) 0 [] exStats
    MAX_ALERT_CONTEXT_ROWS exTableAlert exTableAlert_mem

/-! ## C7: the per-table statistics -/

/-- When every table name occurs once, the registry loop of
`compute_statistics` collects exactly one entry per dataset entry, in
order. -/
theorem registry_foldl_eq (entF : List ℕ → ℚ) (log2F : ℕ → ℚ) :
    ∀ (dataset : List (String × DFrame)) (acc : List (String × TableInfo)),
      (acc.map Prod.fst ++ dataset.map Prod.fst).Nodup →
      dataset.foldl (registryStep entF log2F) acc =
        acc ++ dataset.map fun e => (e.1, tableInfoOf entF log2F e) := by
  intro dataset
  induction dataset with
  | nil => intro acc _; simp
  | cons d t ih =>
    intro acc hnd
    have hdisj : List.Disjoint (acc.map Prod.fst) ((d :: t).map Prod.fst) :=
      List.disjoint_of_nodup_append hnd
    have hnotin : d.1 ∉ acc.map Prod.fst := fun hmem =>
      hdisj hmem (by simp)
    have hany : (acc.any fun e => e.1 = d.1) = false := by
      rw [List.any_eq_false]
      intro e he
      simp only [decide_eq_true_eq]
      intro heq
      exact hnotin (heq ▸ List.mem_map_of_mem Prod.fst he)
    have hstep : registryStep entF log2F acc d =
        acc ++ [(d.1, tableInfoOf entF log2F d)] := by
      unfold registryStep
      rw [hany]
      rfl
    rw [List.foldl_cons, hstep, ih]
    · simp
    · simp only [List.map_append, List.map_cons, List.map_nil] at hnd ⊢
      have : acc.map Prod.fst ++ [d.1] ++ t.map Prod.fst =
          acc.map Prod.fst ++ d.1 :: t.map Prod.fst := by simp
      rw [this]
      exact hnd

/-- Membership in `sorted(set(...))` is membership in the underlying list. -/
theorem mem_sortStrSet (l : List String) (x : String) :
    x ∈ sortStrSet l ↔ x ∈ l := by
  unfold sortStrSet
  rw [(List.perm_insertionSort (· ≤ ·) l.dedup).mem_iff, List.mem_dedup]

/-- `sorted(set(...))` is sorted. -/
theorem sortStrSet_sorted (l : List String) :
    (sortStrSet l).Sorted (· ≤ ·) :=
  List.sorted_insertionSort (· ≤ ·) l.dedup

/-- C7: for every table summary of `compute_statistics` (table names
assumed distinct), `cell_count = row_count * column_count`, the two ratios
divide the column sums by `cell_count` resp. `column_count` with a `none`
guard on zero, `max_null_run` bounds every column's `longest_null_run` and
is attained (or zero), and the two issue-summary lists are sorted and hold
exactly the names of the columns with a failing resp. critical failing
check. -/
theorem C7_table_statistics (entF : List ℕ → ℚ) (log2F : ℕ → ℚ)
    (generated_at : String) (dataset : List (String × DFrame))
    (hnd : (dataset.map Prod.fst).Nodup) :
    ∀ ts ∈ (compute_statistics entF log2F generated_at dataset).tables,
      ∃ e ∈ dataset, ts.table = e.1 ∧
        ts.metrics.cell_count = ts.row_count * ts.column_count ∧
        ts.metrics.null_cell_ratio =
          (if ts.metrics.cell_count = 0 then none
           else some (((((tableInfoOf entF log2F e).columns.map fun c =>
               getNat c.metrics "null_count").sum : ℚ)) /
             (ts.metrics.cell_count : ℚ))) ∧
        ts.metrics.failed_check_ratio_per_column =
          (if ts.column_count = 0 then none
           else some ((((((tableInfoOf entF log2F e).columns.map fun c =>
               c.issue_summary.failed_checks).sum : ℕ) : ℚ)) /
             (ts.column_count : ℚ))) ∧
        (∀ col ∈ (tableInfoOf entF log2F e).columns,
          getNat col.metrics "longest_null_run" ≤ ts.metrics.max_null_run) ∧
        (ts.metrics.max_null_run = 0 ∨
          ∃ col ∈ (tableInfoOf entF log2F e).columns,
            getNat col.metrics "longest_null_run" = ts.metrics.max_null_run) ∧
        ts.issue_summary.columns_with_issues.Sorted (· ≤ ·) ∧
        (∀ x, x ∈ ts.issue_summary.columns_with_issues ↔
          ∃ col ∈ (tableInfoOf entF log2F e).columns,
            col.column = x ∧ 0 < col.issue_summary.failed_checks) ∧
        ts.issue_summary.critical_columns.Sorted (· ≤ ·) ∧
        (∀ x, x ∈ ts.issue_summary.critical_columns ↔
          ∃ col ∈ (tableInfoOf entF log2F e).columns,
            col.column = x ∧ 0 < col.issue_summary.critical_checks) := by
  intro ts hts
  have hreg : dataset.foldl (registryStep entF log2F) [] =
      dataset.map fun e => (e.1, tableInfoOf entF log2F e) :=
    registry_foldl_eq entF log2F dataset [] (by simpa using hnd)
  unfold compute_statistics at hts
  dsimp only at hts
  rw [hreg, List.map_map] at hts
  rw [List.mem_map] at hts
  obtain ⟨e, he, hts_eq⟩ := hts
  subst hts_eq
  refine ⟨e, he, rfl, rfl, rfl, rfl, ?_, ?_, ?_, ?_, ?_, ?_⟩
  · intro col hcol
    exact le_foldr_max _ _ (List.mem_map_of_mem _ hcol)
  · rcases eq_or_ne ((tableInfoOf entF log2F e).columns.map fun c =>
        getNat c.metrics "longest_null_run") [] with hnil | hnil
    · left
      show (((tableInfoOf entF log2F e).columns.map fun c =>
        getNat c.metrics "longest_null_run").foldr max 0) = 0
      rw [hnil]
      rfl
    · rcases foldr_max_mem _ hnil with hm | h0
      · right
        rw [List.mem_map] at hm
        obtain ⟨col, hcol, hceq⟩ := hm
        exact ⟨col, hcol, hceq⟩
      · left
        exact h0
  · exact sortStrSet_sorted _
  · intro x
    show x ∈ sortStrSet (infoIssueColumns (tableInfoOf entF log2F e)) ↔ _
    rw [mem_sortStrSet]
    unfold infoIssueColumns
    rw [List.mem_dedup]
    simp only [List.mem_map, List.mem_filter]
    constructor
    · rintro ⟨col, ⟨hcol, hp⟩, hx⟩
      exact ⟨col, hcol, hx, by simpa using hp⟩
    · rintro ⟨col, hcol, hx, hp⟩
      exact ⟨col, ⟨hcol, by simpa using hp⟩, hx⟩
  · exact sortStrSet_sorted _
  · intro x
    show x ∈ sortStrSet (infoCriticalColumns (tableInfoOf entF log2F e)) ↔ _
    rw [mem_sortStrSet]
    unfold infoCriticalColumns
    rw [List.mem_dedup]
    simp only [List.mem_map, List.mem_filter]
    constructor
    · rintro ⟨col, ⟨hcol, hp⟩, hx⟩
      exact ⟨col, hcol, hx, by simpa using hp⟩
    · rintro ⟨col, hcol, hx, hp⟩
      exact ⟨col, ⟨hcol, by simpa using hp⟩, hx⟩

/-- Witness: C7 applied to the concrete one-table dataset of the 12-row
table. -/
theorem C7_table_statistics_witness :
    ∃ e ∈ exDataset12,
      (tableSummaryOf "tbl" (tableInfoOf ent1 log1 ("tbl", df12))).table = e.1 := by
  have hnd : (exDataset12.map Prod.fst).Nodup := by
    simp [exDataset12]
  have hmem : tableSummaryOf "tbl" (tableInfoOf ent1 log1 ("tbl", df12)) ∈
      (compute_statistics ent1 log1 "g" exDataset12).tables := by
    unfold compute_statistics registryStep exDataset12
    simp only [List.foldl_cons, List.foldl_nil, List.any_nil, List.map_cons,
      List.map_nil, List.nil_append, Bool.false_eq_true, if_false,
      List.mem_singleton]
    rfl
  obtain ⟨e, he, htab, _⟩ :=
    C7_table_statistics ent1 log1 "g" exDataset12 hnd
      (tableSummaryOf "tbl" (tableInfoOf ent1 log1 ("tbl", df12))) hmem
  exact ⟨e, he, htab⟩


end Stats
